import Mathlib

/-!
Shallow embedding of the Chip-8 virtual machine from `src/main.py`
(`disassemble`, class `Chip8`, and the ROM-loading path of class `App`),
together with theorems checking the specification's claims about it.

Python integers are modelled as `Nat` (all values handled by the core are
nonnegative; the one subtraction that can go below zero, in the 8xy5/8xy7
instructions, is computed in `Int` and reduced mod 256 exactly as Python's
`& 0xFF` does).  Python list indexing raises `IndexError` on an index that
is `≥ len`; that failure is modelled by the `OutOfBounds` error of the
explicit `Except` results below.  `list.pop()` on an empty list is
`StackUnderflow`, the `raise Exception("Unknown opcode ...")` branch is
`UnknownOpcode`, and the GUI's oversize-ROM rejection is `OversizeRom`.
-/

set_option maxHeartbeats 1000000
set_option maxRecDepth 8000

/-- The failure taxonomy of the specification (§7). -/
inductive Err where
  | OutOfBounds
  | StackUnderflow
  | StackOverflow
  | OversizeRom
  | UnknownOpcode
deriving DecidableEq, Repr

instance {ε α : Type} [DecidableEq ε] [DecidableEq α] : DecidableEq (Except ε α) :=
  fun x y =>
    match x, y with
    | .ok a, .ok b =>
        if h : a = b then .isTrue (by rw [h]) else .isFalse (by simp [h])
    | .error e, .error f =>
        if h : e = f then .isTrue (by rw [h]) else .isFalse (by simp [h])
    | .ok _, .error _ => .isFalse (by simp)
    | .error _, .ok _ => .isFalse (by simp)

/-- Checked list read: Python `l[i]` for a nonnegative index
(raises `IndexError`, i.e. `OutOfBounds`, when `i ≥ len(l)`). -/
def lget (l : List Nat) (i : Nat) : Except Err Nat :=
  if h : i < l.length then .ok (l.get ⟨i, h⟩) else .error .OutOfBounds

/-- Checked list write: Python `l[i] = v` for a nonnegative index. -/
def lset (l : List Nat) (i : Nat) (v : Nat) : Except Err (List Nat) :=
  if i < l.length then .ok (l.set i v) else .error .OutOfBounds

/-- `l[i]` with default `0`; used only to state theorems, never by the
embedded code. -/
def nth (l : List Nat) (i : Nat) : Nat := l.getD i 0

theorem exBindOk {α β : Type} (a : α) (f : α → Except Err β) :
    ((Except.ok a : Except Err α) >>= f) = f a := rfl

theorem exBindErr {α β : Type} (e : Err) (f : α → Except Err β) :
    ((Except.error e : Except Err α) >>= f) = .error e := rfl

theorem lget_ok {l : List Nat} {i : Nat} (h : i < l.length) :
    lget l i = .ok (nth l i) := by
  simp [lget, h, nth, List.getD_eq_getElem?_getD, List.getElem?_eq_getElem h]

theorem lget_err {l : List Nat} {i : Nat} (h : ¬ i < l.length) :
    lget l i = .error .OutOfBounds := by
  simp [lget, h]

theorem lset_ok {l : List Nat} {i : Nat} (v : Nat) (h : i < l.length) :
    lset l i v = .ok (l.set i v) := by
  simp [lset, h]

theorem nth_set_self {l : List Nat} {i : Nat} (v : Nat) (h : i < l.length) :
    nth (l.set i v) i = v := by
  simp [nth, List.getD_eq_getElem?_getD, List.getElem?_set_self h]

theorem nth_set_ne {l : List Nat} {i j : Nat} (v : Nat) (h : i ≠ j) :
    nth (l.set i v) j = nth l j := by
  simp [nth, List.getD_eq_getElem?_getD, List.getElem?_set_ne h]

/-- `0123456789ABCDEF` digit characters, as produced by Python's `X`
format conversions. -/
def hexDigit (d : Nat) : Char :=
  if d < 10 then Char.ofNat (48 + d) else Char.ofNat (55 + d)

/-- Digit expansion of `m` in base 16 (most significant first), with
explicit fuel so that it reduces by evaluation; `fuel ≥ m` suffices. -/
def hexCharsAux : Nat → Nat → List Char
  | 0, _ => []
  | _ + 1, 0 => []
  | fuel + 1, m => hexCharsAux fuel (m / 16) ++ [hexDigit (m % 16)]

/-- The digits of `m` written in uppercase hexadecimal (Python `f"{m:X}"`). -/
def hexChars (m : Nat) : List Char :=
  if m = 0 then ['0'] else hexCharsAux (m + 1) m

/-- Python `f"{m:0wX}"`: uppercase hexadecimal, zero-padded on the left to
at least `w` characters. -/
def hexPad (w m : Nat) : String :=
  String.mk (List.replicate (w - (hexChars m).length) '0' ++ hexChars m)

/-- Memory size constant from line 6 of the source. -/
def MEMORY_SIZE : Nat := 4096

/-- The disassembler (`disassemble`, lines 8-65 of the source): a pure
function from an opcode to its mnemonic.  A branch of the Python if-chain
whose inner sub-cases all fail falls through to the final
`return f"UNKNOWN {opcode:04X}"`, which the inner `else`s reproduce here. -/
def disassemble (opcode : Nat) : String :=
  let nnn := opcode &&& 0x0FFF
  let n := opcode &&& 0x000F
  let x := (opcode &&& 0x0F00) >>> 8
  let y := (opcode &&& 0x00F0) >>> 4
  let kk := opcode &&& 0x00FF
  if opcode = 0x00E0 then "CLS"
  else if opcode = 0x00EE then "RET"
  else if opcode &&& 0xF000 = 0x1000 then "JP " ++ hexPad 3 nnn
  else if opcode &&& 0xF000 = 0x2000 then "CALL " ++ hexPad 3 nnn
  else if opcode &&& 0xF000 = 0x3000 then
    "SE V" ++ hexPad 1 x ++ ", " ++ hexPad 2 kk
  else if opcode &&& 0xF000 = 0x4000 then
    "SNE V" ++ hexPad 1 x ++ ", " ++ hexPad 2 kk
  else if opcode &&& 0xF000 = 0x5000 ∧ n = 0 then
    "SE V" ++ hexPad 1 x ++ ", V" ++ hexPad 1 y
  else if opcode &&& 0xF000 = 0x6000 then
    "LD V" ++ hexPad 1 x ++ ", " ++ hexPad 2 kk
  else if opcode &&& 0xF000 = 0x7000 then
    "ADD V" ++ hexPad 1 x ++ ", " ++ hexPad 2 kk
  else if opcode &&& 0xF000 = 0x8000 then
    if n = 0x0 then "LD V" ++ hexPad 1 x ++ ", V" ++ hexPad 1 y
    else if n = 0x1 then "OR V" ++ hexPad 1 x ++ ", V" ++ hexPad 1 y
    else if n = 0x2 then "AND V" ++ hexPad 1 x ++ ", V" ++ hexPad 1 y
    else if n = 0x3 then "XOR V" ++ hexPad 1 x ++ ", V" ++ hexPad 1 y
    else if n = 0x4 then "ADD V" ++ hexPad 1 x ++ ", V" ++ hexPad 1 y
    else if n = 0x5 then "SUB V" ++ hexPad 1 x ++ ", V" ++ hexPad 1 y
    else if n = 0x6 then "SHR V" ++ hexPad 1 x
    else if n = 0x7 then "SUBN V" ++ hexPad 1 x ++ ", V" ++ hexPad 1 y
    else if n = 0xE then "SHL V" ++ hexPad 1 x
    else "UNKNOWN " ++ hexPad 4 opcode
  else if opcode &&& 0xF000 = 0x9000 ∧ n = 0 then
    "SNE V" ++ hexPad 1 x ++ ", V" ++ hexPad 1 y
  else if opcode &&& 0xF000 = 0xA000 then "LD I, " ++ hexPad 3 nnn
  else if opcode &&& 0xF000 = 0xB000 then "JP V0, " ++ hexPad 3 nnn
  else if opcode &&& 0xF000 = 0xC000 then
    "RND V" ++ hexPad 1 x ++ ", " ++ hexPad 2 kk
  else if opcode &&& 0xF000 = 0xD000 then
    "DRW V" ++ hexPad 1 x ++ ", V" ++ hexPad 1 y ++ ", " ++ hexPad 1 n
  else if opcode &&& 0xF000 = 0xE000 then
    if kk = 0x9E then "SKP V" ++ hexPad 1 x
    else if kk = 0xA1 then "SKNP V" ++ hexPad 1 x
    else "UNKNOWN " ++ hexPad 4 opcode
  else if opcode &&& 0xF000 = 0xF000 then
    if kk = 0x07 then "LD V" ++ hexPad 1 x ++ ", DT"
    else if kk = 0x0A then "LD V" ++ hexPad 1 x ++ ", K"
    else if kk = 0x15 then "LD DT, V" ++ hexPad 1 x
    else if kk = 0x18 then "LD ST, V" ++ hexPad 1 x
    else if kk = 0x1E then "ADD I, V" ++ hexPad 1 x
    else if kk = 0x29 then "LD F, V" ++ hexPad 1 x
    else if kk = 0x33 then "LD B, V" ++ hexPad 1 x
    else if kk = 0x55 then "LD [I], V0-V" ++ hexPad 1 x
    else if kk = 0x65 then "LD V0-V" ++ hexPad 1 x ++ ", [I]"
    else "UNKNOWN " ++ hexPad 4 opcode
  else "UNKNOWN " ++ hexPad 4 opcode

example : disassemble 0x00E0 = "CLS" := by decide
example : disassemble 0x1234 = "JP 234" := by decide
example : disassemble 0xE000 = "UNKNOWN E000" := by decide
example : disassemble 0x8128 = "UNKNOWN 8128" := by decide
example : disassemble 0xAABC = "LD I, ABC" := by decide

/-- The machine state of class `Chip8` (lines 68-113 of the source). -/
structure Chip8 where
  memory : List Nat
  V : List Nat
  I : Nat
  pc : Nat
  stack : List Nat
  delay_timer : Nat
  sound_timer : Nat
  display : List (List Nat)
  keys : List Nat
deriving DecidableEq, Repr

/-- The 80-byte fontset (lines 94-111). -/
def fontset : List Nat :=
  [0xF0,0x90,0x90,0x90,0xF0,
   0x20,0x60,0x20,0x20,0x70,
   0xF0,0x10,0xF0,0x80,0xF0,
   0xF0,0x10,0xF0,0x10,0xF0,
   0x90,0x90,0xF0,0x10,0x10,
   0xF0,0x80,0xF0,0x10,0xF0,
   0xF0,0x80,0xF0,0x90,0xF0,
   0xF0,0x10,0x20,0x40,0x40,
   0xF0,0x90,0xF0,0x90,0xF0,
   0xF0,0x90,0xF0,0x10,0xF0,
   0xF0,0x90,0xF0,0x90,0x90,
   0xE0,0x90,0xE0,0x90,0xE0,
   0xF0,0x80,0x80,0x80,0xF0,
   0xE0,0x90,0x90,0x90,0xE0,
   0xF0,0x80,0xF0,0x80,0xF0,
   0xF0,0x80,0xF0,0x80,0x80]

/-- The state built by `Chip8.__init__`: 4096 zero bytes whose first 80
entries are then overwritten with the fontset, zeroed registers, `pc` at
0x200, empty stack, zeroed timers, a 32x64 zero display and 16 released
keys. -/
def initChip8 : Chip8 :=
  { memory := fontset ++ List.replicate (MEMORY_SIZE - fontset.length) 0
    V := List.replicate 16 0
    I := 0
    pc := 0x200
    stack := []
    delay_timer := 0
    sound_timer := 0
    display := List.replicate 32 (List.replicate 64 0)
    keys := List.replicate 16 0 }

/-- The write loop of `Chip8.load_rom` (lines 118-119):
`for i, byte in enumerate(rom): self.memory[0x200 + i] = byte`.
The final memory is returned together with the error, if any, so that a
failing run still exposes the bytes written before the failure (Python
mutates `self.memory` in place, so those writes survive the exception). -/
def load_rom (mem : List Nat) (rom : List Nat) (i : Nat) : List Nat × Option Err :=
  match rom with
  | [] => (mem, none)
  | b :: rest =>
      if 0x200 + i < mem.length then load_rom (mem.set (0x200 + i) b) rest (i + 1)
      else (mem, some .OutOfBounds)

/-- The ROM-loading path of the application (`App.load_rom`,
lines 356-364): the ROM bytes are rejected with an oversize error before
any machine state exists whenever `len(rom) > MEMORY_SIZE - 0x200`;
otherwise a fresh `Chip8` is built and `Chip8.load_rom` fills its memory. -/
def app_load_rom (rom : List Nat) : Except Err Chip8 :=
  if rom.length > MEMORY_SIZE - 0x200 then .error .OversizeRom
  else
    match load_rom initChip8.memory rom 0 with
    | (_, some e) => .error e
    | (mem, none) => .ok { initChip8 with memory := mem }

/-- Checked read of display cell `d[r][c]` (Python
`self.display[py][px]`). -/
def lget2 (d : List (List Nat)) (r c : Nat) : Except Err Nat :=
  if h : r < d.length then lget (d.get ⟨r, h⟩) c else .error .OutOfBounds

/-- Checked write of display cell `d[r][c]`. -/
def lset2 (d : List (List Nat)) (r c v : Nat) : Except Err (List (List Nat)) :=
  if h : r < d.length then do
    let row ← lset (d.get ⟨r, h⟩) c v
    .ok (d.set r row)
  else .error .OutOfBounds

/-- Display cell with defaults; used only in theorem statements. -/
def pix (d : List (List Nat)) (r c : Nat) : Nat := nth (d.getD r []) c

/-- Inner loop of the `Dxyn` sprite blit (lines 222-228):
`for col in range(8)` over one sprite byte.  The pair carried through the
loop is the display together with the current value of the collision flag
`V[0xF]` (the loop's only register write is `self.V[0xF] = 1`). -/
def drwCols (sprite vx vy row : Nat) :
    List Nat → List (List Nat) × Nat → Except Err (List (List Nat) × Nat)
  | [], dv => .ok dv
  | col :: rest, (d, vf) =>
      if sprite &&& (0x80 >>> col) ≠ 0 then do
        let px := (vx + col) % 64
        let py := (vy + row) % 32
        let old ← lget2 d py px
        let vf1 := if old = 1 then 1 else vf
        let d1 ← lset2 d py px (old ^^^ 1)
        drwCols sprite vx vy row rest (d1, vf1)
      else drwCols sprite vx vy row rest (d, vf)

/-- Outer loop of the `Dxyn` sprite blit (lines 220-228):
`for row in range(n)`, reading one sprite byte per row. -/
def drwRows (mem : List Nat) (I vx vy : Nat) :
    List Nat → List (List Nat) × Nat → Except Err (List (List Nat) × Nat)
  | [], dv => .ok dv
  | row :: rest, dv => do
      let sprite ← lget mem (I + row)
      let dv1 ← drwCols sprite vx vy row (List.range 8) dv
      drwRows mem I vx vy rest dv1

/-- The `Fx0A` key scan (lines 244-248): first index in `0x0..0xF` whose
key is truthy, scanning in ascending order. -/
def scanKeys (keys : List Nat) : List Nat → Except Err (Option Nat)
  | [] => .ok none
  | i :: rest => do
      let k ← lget keys i
      if k ≠ 0 then .ok (some i) else scanKeys keys rest

/-- The `Fx55` loop (lines 273-274): `memory[I..I+x] := V[0..x]`. -/
def storeRegs (V : List Nat) (I : Nat) : List Nat → List Nat → Except Err (List Nat)
  | [], mem => .ok mem
  | i :: rest, mem => do
      let v ← lget V i
      let mem1 ← lset mem (I + i) v
      storeRegs V I rest mem1

/-- The `Fx65` loop (lines 277-278): `V[0..x] := memory[I..I+x]`. -/
def loadRegs (mem : List Nat) (I : Nat) : List Nat → List Nat → Except Err (List Nat)
  | [], V => .ok V
  | i :: rest, V => do
      let v ← lget mem (I + i)
      let V1 ← lset V i v
      loadRegs mem I rest V1

/-- Python `(a - b) & 0xFF` where `a - b` may be negative: arbitrary
precision two's complement `&` agrees with the mathematical residue
mod 256. -/
def subByte (a b : Nat) : Nat := (((a : Int) - (b : Int)).emod 256).toNat

/-- Decode and execute one already-fetched opcode (lines 127-281).  `s.pc`
has already been advanced by 2 by the fetch.  `rnd` is the value returned
by `random.randint(0, 255)` in the `Cxkk` branch (the only branch that
uses it). -/
def exec (s : Chip8) (opcode rnd : Nat) : Except Err Chip8 :=
  let nnn := opcode &&& 0x0FFF
  let n := opcode &&& 0x000F
  let x := (opcode &&& 0x0F00) >>> 8
  let y := (opcode &&& 0x00F0) >>> 4
  let kk := opcode &&& 0x00FF
  if opcode = 0x00E0 then
    .ok { s with display := List.replicate 32 (List.replicate 64 0) }
  else if opcode = 0x00EE then
    match s.stack.getLast? with
    | none => .error .StackUnderflow
    | some a => .ok { s with pc := a, stack := s.stack.dropLast }
  else if opcode &&& 0xF000 = 0x0000 then .ok s
  else if opcode &&& 0xF000 = 0x1000 then .ok { s with pc := nnn }
  else if opcode &&& 0xF000 = 0x2000 then
    .ok { s with stack := s.stack ++ [s.pc], pc := nnn }
  else if opcode &&& 0xF000 = 0x3000 then do
    let vx ← lget s.V x
    .ok (if vx = kk then { s with pc := s.pc + 2 } else s)
  else if opcode &&& 0xF000 = 0x4000 then do
    let vx ← lget s.V x
    .ok (if vx ≠ kk then { s with pc := s.pc + 2 } else s)
  else if opcode &&& 0xF000 = 0x5000 then
    if n = 0 then do
      let vx ← lget s.V x
      let vy ← lget s.V y
      .ok (if vx = vy then { s with pc := s.pc + 2 } else s)
    else .ok s
  else if opcode &&& 0xF000 = 0x6000 then do
    let V1 ← lset s.V x kk
    .ok { s with V := V1 }
  else if opcode &&& 0xF000 = 0x7000 then do
    let vx ← lget s.V x
    let V1 ← lset s.V x ((vx + kk) &&& 0xFF)
    .ok { s with V := V1 }
  else if opcode &&& 0xF000 = 0x8000 then
    if n = 0x0 then do
      let vy ← lget s.V y
      let V1 ← lset s.V x vy
      .ok { s with V := V1 }
    else if n = 0x1 then do
      let vx ← lget s.V x
      let vy ← lget s.V y
      let V1 ← lset s.V x (vx ||| vy)
      .ok { s with V := V1 }
    else if n = 0x2 then do
      let vx ← lget s.V x
      let vy ← lget s.V y
      let V1 ← lset s.V x (vx &&& vy)
      .ok { s with V := V1 }
    else if n = 0x3 then do
      let vx ← lget s.V x
      let vy ← lget s.V y
      let V1 ← lset s.V x (vx ^^^ vy)
      .ok { s with V := V1 }
    else if n = 0x4 then do
      -- result is computed before the flag write (line 183)
      let vx ← lget s.V x
      let vy ← lget s.V y
      let result := vx + vy
      let V1 ← lset s.V 0xF (if result > 0xFF then 1 else 0)
      let V2 ← lset V1 x (result &&& 0xFF)
      .ok { s with V := V2 }
    else if n = 0x5 then do
      -- the flag is written first and the operands are re-read for the
      -- subtraction (lines 188-189), so x = 0xF or y = 0xF sees the flag
      let vx ← lget s.V x
      let vy ← lget s.V y
      let V1 ← lset s.V 0xF (if vx > vy then 1 else 0)
      let vx1 ← lget V1 x
      let vy1 ← lget V1 y
      let V2 ← lset V1 x (subByte vx1 vy1)
      .ok { s with V := V2 }
    else if n = 0x6 then do
      let vx ← lget s.V x
      let V1 ← lset s.V 0xF (vx &&& 0x1)
      let vx1 ← lget V1 x
      let V2 ← lset V1 x (vx1 >>> 1)
      .ok { s with V := V2 }
    else if n = 0x7 then do
      let vx ← lget s.V x
      let vy ← lget s.V y
      let V1 ← lset s.V 0xF (if vy > vx then 1 else 0)
      let vx1 ← lget V1 x
      let vy1 ← lget V1 y
      let V2 ← lset V1 x (subByte vy1 vx1)
      .ok { s with V := V2 }
    else if n = 0xE then do
      let vx ← lget s.V x
      let V1 ← lset s.V 0xF ((vx &&& 0x80) >>> 7)
      let vx1 ← lget V1 x
      let V2 ← lset V1 x ((vx1 <<< 1) &&& 0xFF)
      .ok { s with V := V2 }
    else .ok s
  else if opcode &&& 0xF000 = 0x9000 then
    if n = 0 then do
      let vx ← lget s.V x
      let vy ← lget s.V y
      .ok (if vx ≠ vy then { s with pc := s.pc + 2 } else s)
    else .ok s
  else if opcode &&& 0xF000 = 0xA000 then .ok { s with I := nnn }
  else if opcode &&& 0xF000 = 0xB000 then do
    let v0 ← lget s.V 0
    .ok { s with pc := nnn + v0 }
  else if opcode &&& 0xF000 = 0xC000 then do
    let V1 ← lset s.V x (rnd &&& kk)
    .ok { s with V := V1 }
  else if opcode &&& 0xF000 = 0xD000 then do
    -- vx and vy are captured (line 218) before V[0xF] is zeroed (219)
    let vx ← lget s.V x
    let vy ← lget s.V y
    let V1 ← lset s.V 0xF 0
    let dv ← drwRows s.memory s.I vx vy (List.range n) (s.display, 0)
    let V2 ← lset V1 0xF dv.2
    .ok { s with display := dv.1, V := V2 }
  else if opcode &&& 0xF000 = 0xE000 then
    if kk = 0x9E then do
      let vx ← lget s.V x
      let k ← lget s.keys vx
      .ok (if k = 1 then { s with pc := s.pc + 2 } else s)
    else if kk = 0xA1 then do
      let vx ← lget s.V x
      let k ← lget s.keys vx
      .ok (if k = 0 then { s with pc := s.pc + 2 } else s)
    else .ok s
  else if opcode &&& 0xF000 = 0xF000 then
    if kk = 0x07 then do
      let V1 ← lset s.V x s.delay_timer
      .ok { s with V := V1 }
    else if kk = 0x0A then do
      let pressed ← scanKeys s.keys (List.range 16)
      match pressed with
      | none => .ok { s with pc := s.pc - 2 }
      | some i => do
          let V1 ← lset s.V x i
          .ok { s with V := V1 }
    else if kk = 0x15 then do
      let vx ← lget s.V x
      .ok { s with delay_timer := vx }
    else if kk = 0x18 then do
      let vx ← lget s.V x
      .ok { s with sound_timer := vx }
    else if kk = 0x1E then do
      let vx ← lget s.V x
      .ok { s with I := (s.I + vx) &&& 0xFFF }
    else if kk = 0x29 then do
      let vx ← lget s.V x
      .ok { s with I := vx * 5 }
    else if kk = 0x33 then do
      let vx ← lget s.V x
      let m1 ← lset s.memory s.I (vx / 100)
      let m2 ← lset m1 (s.I + 1) (vx / 10 % 10)
      let m3 ← lset m2 (s.I + 2) (vx % 10)
      .ok { s with memory := m3 }
    else if kk = 0x55 then do
      let mem1 ← storeRegs s.V s.I (List.range (x + 1)) s.memory
      .ok { s with memory := mem1 }
    else if kk = 0x65 then do
      let V1 ← loadRegs s.memory s.I (List.range (x + 1)) s.V
      .ok { s with V := V1 }
    else .ok s
  else .error .UnknownOpcode

/-- One call of `Chip8.cycle` (lines 121-281): fetch the big-endian opcode
at `pc`, advance `pc` by 2, then decode and execute. -/
def cycle (s : Chip8) (rnd : Nat) : Except Err Chip8 := do
  let b1 ← lget s.memory s.pc
  let b2 ← lget s.memory (s.pc + 1)
  exec { s with pc := s.pc + 2 } ((b1 <<< 8) ||| b2) rnd

/-- A small machine state used to evaluate the embedding on concrete
inputs: the given memory and key list, zeroed registers and timers, `pc`
at 0, an empty stack, and the full 32x64 zero display. -/
def smallState (mem keys : List Nat) : Chip8 :=
  { memory := mem
    V := List.replicate 16 0
    I := 0
    pc := 0
    stack := []
    delay_timer := 0
    sound_timer := 0
    display := List.replicate 32 (List.replicate 64 0)
    keys := keys }

example :
    cycle (smallState [0x60, 0x2A] (List.replicate 16 0)) 0
      = .ok { smallState [0x60, 0x2A] (List.replicate 16 0) with
                pc := 2
                V := (List.replicate 16 0).set 0 0x2A } := by decide

/-- C1: for a 4096-byte memory, every address outside `[0, 4095]` makes a
read or a write fail with `OutOfBounds`, every address inside succeeds
(so never produces that error), and, as the `cycle` instance of this,
fetching from an out-of-range `pc` surfaces `OutOfBounds`.  All the core's
memory accesses (fetch, the `Dxyn` sprite reads, the `Fx33`/`Fx55` writes
and the `Fx65` reads) go through `lget`/`lset` on `Chip8.memory`. -/
theorem mem_access_bounds (m : List Nat) (hm : m.length = MEMORY_SIZE) (a v : Nat) :
    (lget m a = .error .OutOfBounds ↔ ¬ a ≤ 4095) ∧
    ((∃ b, lget m a = .ok b) ↔ a ≤ 4095) ∧
    (lset m a v = .error .OutOfBounds ↔ ¬ a ≤ 4095) ∧
    ((∃ l, lset m a v = .ok l) ↔ a ≤ 4095) ∧
    (∀ (s : Chip8) (r : Nat), s.memory = m → ¬ s.pc ≤ 4095 →
      cycle s r = .error .OutOfBounds) := by
  have hlen : m.length = 4096 := hm
  refine ⟨?_, ?_, ?_, ?_, ?_⟩
  · unfold lget
    split <;> simp <;> omega
  · unfold lget
    split <;> simp <;> omega
  · unfold lset
    split <;> simp <;> omega
  · unfold lset
    split <;> simp <;> omega
  · intro s r hsm hpc
    have h1 : lget s.memory s.pc = .error .OutOfBounds := by
      apply lget_err
      rw [hsm, hlen]
      omega
    simp [cycle, h1, exBindErr]

/-- Witness for `mem_access_bounds` at a concrete memory and address. -/
theorem mem_access_bounds_witness :
    (lget (List.replicate 4096 0) 5000 = .error .OutOfBounds ↔ ¬ 5000 ≤ 4095) ∧
    ((∃ b, lget (List.replicate 4096 0) 5000 = .ok b) ↔ 5000 ≤ 4095) ∧
    (lset (List.replicate 4096 0) 5000 7 = .error .OutOfBounds ↔ ¬ 5000 ≤ 4095) ∧
    ((∃ l, lset (List.replicate 4096 0) 5000 7 = .ok l) ↔ 5000 ≤ 4095) ∧
    (∀ (s : Chip8) (r : Nat), s.memory = List.replicate 4096 0 → ¬ s.pc ≤ 4095 →
      cycle s r = .error .OutOfBounds) :=
  mem_access_bounds (List.replicate 4096 0) (by rw [List.length_replicate]; rfl) 5000 7

/-- Behaviour of the `Chip8.load_rom` write loop when the whole ROM fits:
no error, length preserved, the ROM bytes land verbatim at
`0x200 + i`, and every other address is untouched. -/
theorem load_rom_ok :
    ∀ (rom mem : List Nat) (i : Nat), 0x200 + i + rom.length ≤ mem.length →
      (load_rom mem rom i).2 = none ∧
      (load_rom mem rom i).1.length = mem.length ∧
      (∀ j, j < rom.length → nth (load_rom mem rom i).1 (0x200 + i + j) = nth rom j) ∧
      (∀ a, a < 0x200 + i ∨ 0x200 + i + rom.length ≤ a →
        nth (load_rom mem rom i).1 a = nth mem a) := by
  intro rom
  induction rom with
  | nil =>
      intro mem i h
      refine ⟨rfl, rfl, ?_, ?_⟩
      · intro j hj
        simp at hj
      · intro a _
        rfl
  | cons b rest ih =>
      intro mem i h
      have hlt : 0x200 + i < mem.length := by
        simp [List.length_cons] at h
        omega
      have hstep : load_rom mem (b :: rest) i
          = load_rom (mem.set (0x200 + i) b) rest (i + 1) := by
        simp [load_rom, hlt]
      have hih := ih (mem.set (0x200 + i) b) (i + 1)
        (by simp [List.length_cons] at h ⊢; omega)
      refine ⟨by rw [hstep]; exact hih.1, by rw [hstep]; simp [hih.2.1], ?_, ?_⟩
      · intro j hj
        rw [hstep]
        match j with
        | 0 =>
            have heq0 : 0x200 + i + 0 = 0x200 + i := by omega
            rw [heq0, hih.2.2.2 (0x200 + i) (Or.inl (by omega)), nth_set_self b hlt]
            rfl
        | j + 1 =>
            have hjr : j < rest.length := by
              simp [List.length_cons] at hj
              omega
            have heq : 0x200 + i + (j + 1) = 0x200 + (i + 1) + j := by omega
            rw [heq, hih.2.2.1 j hjr]
            simp [nth]
      · intro a ha
        rw [hstep]
        have ha2 : a < 0x200 + (i + 1) ∨ 0x200 + (i + 1) + rest.length ≤ a := by
          simp [List.length_cons] at ha
          omega
        rw [hih.2.2.2 a ha2]
        apply nth_set_ne
        simp [List.length_cons] at ha
        omega

/-- C2: a ROM longer than 3584 bytes is rejected by the loading path with
`OversizeRom` before any machine state is touched (the length guard runs
before the VM is even constructed); a ROM of length at most 3584 loads
without error, its bytes are written verbatim from 0x200 and every other
address keeps its previous value. -/
theorem load_rom_correct (rom : List Nat) :
    (rom.length > 3584 → app_load_rom rom = .error .OversizeRom) ∧
    (rom.length ≤ 3584 → ∀ mem : List Nat, mem.length = MEMORY_SIZE →
      (load_rom mem rom 0).2 = none ∧
      (∀ j, j < rom.length → nth (load_rom mem rom 0).1 (0x200 + j) = nth rom j) ∧
      (∀ a, a < 0x200 ∨ 0x200 + rom.length ≤ a →
        nth (load_rom mem rom 0).1 a = nth mem a)) := by
  constructor
  · intro h
    have : rom.length > MEMORY_SIZE - 0x200 := by
      simp [MEMORY_SIZE]
      omega
    simp [app_load_rom, this]
  · intro h mem hmem
    have hfit : 0x200 + 0 + rom.length ≤ mem.length := by
      rw [hmem]
      simp [MEMORY_SIZE]
      omega
    have hok := load_rom_ok rom mem 0 hfit
    refine ⟨hok.1, ?_, ?_⟩
    · intro j hj
      have := hok.2.2.1 j hj
      simpa using this
    · intro a ha
      apply hok.2.2.2
      omega

/-- Witness for `load_rom_correct`: a 3585-byte ROM is rejected with
`OversizeRom`, and a 2-byte ROM loads verbatim into a zeroed memory. -/
theorem load_rom_correct_witness :
    app_load_rom (List.replicate 3585 7) = .error .OversizeRom ∧
    ((load_rom (List.replicate 4096 0) [0x12, 0x34] 0).2 = none ∧
      (∀ j, j < 2 → nth (load_rom (List.replicate 4096 0) [0x12, 0x34] 0).1 (0x200 + j)
        = nth [0x12, 0x34] j) ∧
      (∀ a, a < 0x200 ∨ 0x200 + 2 ≤ a →
        nth (load_rom (List.replicate 4096 0) [0x12, 0x34] 0).1 a
          = nth (List.replicate 4096 0) a)) :=
  ⟨(load_rom_correct (List.replicate 3585 7)).1
     (by rw [List.length_replicate]; omega),
   (load_rom_correct [0x12, 0x34]).2 (by decide) (List.replicate 4096 0)
     (by rw [List.length_replicate]; rfl)⟩

/-- The conditions under which the Python `disassemble` if-chain produces
a mnemonic rather than falling through to the `UNKNOWN` return. -/
def matched (o : Nat) : Prop :=
  o = 0x00E0 ∨ o = 0x00EE ∨
  o &&& 0xF000 = 0x1000 ∨ o &&& 0xF000 = 0x2000 ∨
  o &&& 0xF000 = 0x3000 ∨ o &&& 0xF000 = 0x4000 ∨
  (o &&& 0xF000 = 0x5000 ∧ o &&& 0x000F = 0) ∨
  o &&& 0xF000 = 0x6000 ∨ o &&& 0xF000 = 0x7000 ∨
  (o &&& 0xF000 = 0x8000 ∧
    (o &&& 0x000F = 0x0 ∨ o &&& 0x000F = 0x1 ∨ o &&& 0x000F = 0x2 ∨
     o &&& 0x000F = 0x3 ∨ o &&& 0x000F = 0x4 ∨ o &&& 0x000F = 0x5 ∨
     o &&& 0x000F = 0x6 ∨ o &&& 0x000F = 0x7 ∨ o &&& 0x000F = 0xE)) ∨
  (o &&& 0xF000 = 0x9000 ∧ o &&& 0x000F = 0) ∨
  o &&& 0xF000 = 0xA000 ∨ o &&& 0xF000 = 0xB000 ∨
  o &&& 0xF000 = 0xC000 ∨ o &&& 0xF000 = 0xD000 ∨
  (o &&& 0xF000 = 0xE000 ∧ (o &&& 0x00FF = 0x9E ∨ o &&& 0x00FF = 0xA1)) ∨
  (o &&& 0xF000 = 0xF000 ∧
    (o &&& 0x00FF = 0x07 ∨ o &&& 0x00FF = 0x0A ∨ o &&& 0x00FF = 0x15 ∨
     o &&& 0x00FF = 0x18 ∨ o &&& 0x00FF = 0x1E ∨ o &&& 0x00FF = 0x29 ∨
     o &&& 0x00FF = 0x33 ∨ o &&& 0x00FF = 0x55 ∨ o &&& 0x00FF = 0x65))

/-- C8: the disassembler is a total function on opcodes; every opcode not
matched by its case table (including unhandled sub-cases of the
8xxx/Exxx/Fxxx groups) yields `"UNKNOWN "` followed by the opcode in four
uppercase hexadecimal digits, and the three sample opcodes disassemble as
specified. -/
theorem disassemble_total :
    (∀ o : Nat, ¬ matched o → disassemble o = "UNKNOWN " ++ hexPad 4 o) ∧
    disassemble 0x00E0 = "CLS" ∧
    disassemble 0x1234 = "JP 234" ∧
    disassemble 0xE000 = "UNKNOWN E000" := by
  refine ⟨?_, by decide, by decide, by decide⟩
  intro o h
  rw [matched] at h
  push_neg at h
  obtain ⟨h1, h2, h3, h4, h5, h6, h7, h8, h9, h10, h11, h12, h13, h14, h15, h16, h17⟩ := h
  unfold disassemble
  rw [if_neg h1, if_neg h2, if_neg h3, if_neg h4, if_neg h5, if_neg h6,
    if_neg (fun hc => h7 hc.1 hc.2), if_neg h8, if_neg h9]
  by_cases hm8 : o &&& 0xF000 = 0x8000
  · have h10a := h10 hm8
    push_neg at h10a
    simp only [if_pos hm8]
    rw [if_neg h10a.1, if_neg h10a.2.1, if_neg h10a.2.2.1, if_neg h10a.2.2.2.1,
      if_neg h10a.2.2.2.2.1, if_neg h10a.2.2.2.2.2.1, if_neg h10a.2.2.2.2.2.2.1,
      if_neg h10a.2.2.2.2.2.2.2.1, if_neg h10a.2.2.2.2.2.2.2.2]
  · rw [if_neg hm8, if_neg (fun hc => h11 hc.1 hc.2), if_neg h12, if_neg h13,
      if_neg h14, if_neg h15]
    by_cases hmE : o &&& 0xF000 = 0xE000
    · have h16a := h16 hmE
      push_neg at h16a
      simp only [if_pos hmE]
      rw [if_neg h16a.1, if_neg h16a.2]
    · rw [if_neg hmE]
      by_cases hmF : o &&& 0xF000 = 0xF000
      · have h17a := h17 hmF
        push_neg at h17a
        simp only [if_pos hmF]
        rw [if_neg h17a.1, if_neg h17a.2.1, if_neg h17a.2.2.1, if_neg h17a.2.2.2.1,
          if_neg h17a.2.2.2.2.1, if_neg h17a.2.2.2.2.2.1, if_neg h17a.2.2.2.2.2.2.1,
          if_neg h17a.2.2.2.2.2.2.2.1, if_neg h17a.2.2.2.2.2.2.2.2]
      · rw [if_neg hmF]

/-- Witness for the universally quantified part of `disassemble_total`:
opcode 0x8128 has an unhandled 8xxx sub-case. -/
theorem disassemble_total_witness :
    ¬ matched 0x8128 ∧ disassemble 0x8128 = "UNKNOWN " ++ hexPad 4 0x8128 :=
  ⟨by unfold matched; decide, disassemble_total.1 0x8128 (by unfold matched; decide)⟩

theorem decode_x_lt (o : Nat) : (o &&& 0x0F00) >>> 8 < 16 := by
  have h : o &&& 0x0F00 ≤ 0x0F00 := Nat.and_le_right
  rw [Nat.shiftRight_eq_div_pow]
  norm_num
  omega

theorem decode_y_lt (o : Nat) : (o &&& 0x00F0) >>> 4 < 16 := by
  have h : o &&& 0x00F0 ≤ 0x00F0 := Nat.and_le_right
  rw [Nat.shiftRight_eq_div_pow]
  norm_num
  omega

theorem mask_ne_e0 {o c : Nat} (h : o &&& 0xF000 = c) (hc : 0x00E0 &&& 0xF000 ≠ c) :
    o ≠ 0x00E0 := by
  rintro rfl
  exact hc h

theorem mask_ne_ee {o c : Nat} (h : o &&& 0xF000 = c) (hc : 0x00EE &&& 0xF000 ≠ c) :
    o ≠ 0x00EE := by
  rintro rfl
  exact hc h

/-- Executing `2nnn` (CALL): unconditionally append the post-fetch `pc` to
the stack and jump; there is no capacity check of any kind. -/
theorem exec_2nnn (s : Chip8) (o r : Nat) (h : o &&& 0xF000 = 0x2000) :
    exec s o r = .ok { s with stack := s.stack ++ [s.pc], pc := o &&& 0x0FFF } := by
  have hE0 := mask_ne_e0 h (by decide)
  have hEE := mask_ne_ee h (by decide)
  simp [exec, h, hE0, hEE]

/-- C6 (amended): `2nnn` pushes unconditionally onto the unbounded Python
list used as the call stack; it always succeeds, the stack always grows by
exactly one entry, and no `StackOverflow` error exists in the code. -/
theorem call_pushes_unconditionally (s : Chip8) (o r : Nat)
    (h : o &&& 0xF000 = 0x2000) :
    exec s o r = .ok { s with stack := s.stack ++ [s.pc], pc := o &&& 0x0FFF } ∧
    (∀ s', exec s o r = .ok s' → s'.stack.length = s.stack.length + 1) ∧
    exec s o r ≠ .error .StackOverflow := by
  have he := exec_2nnn s o r h
  refine ⟨he, ?_, by rw [he]; simp⟩
  intro s' h'
  rw [he] at h'
  cases h'
  simp

/-- Witness for `call_pushes_unconditionally` at a state whose stack
already holds 16 return addresses. -/
theorem call_pushes_unconditionally_witness :
    exec { smallState [0x22, 0x00] (List.replicate 16 0) with
             stack := List.replicate 16 0x200, pc := 2 } 0x2200 0
      = .ok { smallState [0x22, 0x00] (List.replicate 16 0) with
                stack := List.replicate 16 0x200 ++ [2], pc := 0x200 } ∧
    (∀ s', exec { smallState [0x22, 0x00] (List.replicate 16 0) with
                    stack := List.replicate 16 0x200, pc := 2 } 0x2200 0 = .ok s' →
      s'.stack.length = (List.replicate 16 (0x200 : Nat)).length + 1) ∧
    exec { smallState [0x22, 0x00] (List.replicate 16 0) with
             stack := List.replicate 16 0x200, pc := 2 } 0x2200 0
      ≠ .error .StackOverflow :=
  call_pushes_unconditionally
    { smallState [0x22, 0x00] (List.replicate 16 0) with
        stack := List.replicate 16 0x200, pc := 2 } 0x2200 0 (by decide)

/-- C6 (counterexample): a `CALL` executed with a 16-deep stack does not
fail with `StackOverflow`; it succeeds and leaves 17 entries. -/
theorem call_no_overflow_cx :
    cycle { smallState [0x22, 0x00] (List.replicate 16 0) with
              stack := List.replicate 16 0x200 } 0
      = .ok { smallState [0x22, 0x00] (List.replicate 16 0) with
                stack := List.replicate 16 0x200 ++ [2], pc := 0x200 } ∧
    cycle { smallState [0x22, 0x00] (List.replicate 16 0) with
              stack := List.replicate 16 0x200 } 0
      ≠ .error .StackOverflow ∧
    (List.replicate 16 (0x200 : Nat) ++ [2]).length = 17 := by
  refine ⟨by decide, by decide, ?_⟩
  rw [List.length_append, List.length_replicate]
  rfl

/-- Executing `Fx55`: run the register-store loop over `0..x` and replace
only the `memory` field with its result. -/
theorem exec_Fx55 (s : Chip8) (o r : Nat) (h : o &&& 0xF000 = 0xF000)
    (hkk : o &&& 0x00FF = 0x55) :
    exec s o r =
      (storeRegs s.V s.I (List.range ((o &&& 0x0F00) >>> 8 + 1)) s.memory) >>=
        fun mem1 => .ok { s with memory := mem1 } := by
  have hE0 := mask_ne_e0 h (by decide)
  have hEE := mask_ne_ee h (by decide)
  simp [exec, h, hkk, hE0, hEE]

/-- Executing `Fx65`: run the register-load loop over `0..x` and replace
only the `V` field with its result. -/
theorem exec_Fx65 (s : Chip8) (o r : Nat) (h : o &&& 0xF000 = 0xF000)
    (hkk : o &&& 0x00FF = 0x65) :
    exec s o r =
      (loadRegs s.memory s.I (List.range ((o &&& 0x0F00) >>> 8 + 1)) s.V) >>=
        fun V1 => .ok { s with V := V1 } := by
  have hE0 := mask_ne_e0 h (by decide)
  have hEE := mask_ne_ee h (by decide)
  simp [exec, h, hkk, hE0, hEE]

/-- C9: `Fx55` (store `V[0..x]` to `memory[I..I+x]`) leaves the index
register `I` and the whole register file unchanged, and `Fx65` (load
`V[0..x]` from `memory[I..I+x]`) leaves `I` unchanged: neither instruction
post-increments `I`. -/
theorem fx55_fx65_frame (s : Chip8) (o r : Nat) :
    (o &&& 0xF000 = 0xF000 → o &&& 0x00FF = 0x55 →
      ∀ s', exec s o r = .ok s' → s'.I = s.I ∧ s'.V = s.V) ∧
    (o &&& 0xF000 = 0xF000 → o &&& 0x00FF = 0x65 →
      ∀ s', exec s o r = .ok s' → s'.I = s.I) := by
  constructor
  · intro h hkk s' h'
    rw [exec_Fx55 s o r h hkk] at h'
    cases hsr : storeRegs s.V s.I (List.range ((o &&& 0x0F00) >>> 8 + 1)) s.memory with
    | ok mem1 =>
        rw [hsr, exBindOk] at h'
        cases h'
        exact ⟨rfl, rfl⟩
    | error e =>
        rw [hsr, exBindErr] at h'
        cases h'
  · intro h hkk s' h'
    rw [exec_Fx65 s o r h hkk] at h'
    cases hsr : loadRegs s.memory s.I (List.range ((o &&& 0x0F00) >>> 8 + 1)) s.V with
    | ok V1 =>
        rw [hsr, exBindOk] at h'
        cases h'
        rfl
    | error e =>
        rw [hsr, exBindErr] at h'
        cases h'

/-- Witness for `fx55_fx65_frame`: store then load with `x = 2`, `I = 0`
on a concrete 4-byte memory. -/
theorem fx55_fx65_frame_witness :
    (∀ s', exec (smallState [1, 2, 3, 4] (List.replicate 16 0)) 0xF255 0 = .ok s' →
      s'.I = (smallState [1, 2, 3, 4] (List.replicate 16 0)).I ∧
      s'.V = (smallState [1, 2, 3, 4] (List.replicate 16 0)).V) ∧
    (∀ s', exec (smallState [1, 2, 3, 4] (List.replicate 16 0)) 0xF265 0 = .ok s' →
      s'.I = (smallState [1, 2, 3, 4] (List.replicate 16 0)).I) :=
  ⟨(fx55_fx65_frame (smallState [1, 2, 3, 4] (List.replicate 16 0)) 0xF255 0).1
      (by decide) (by decide),
   (fx55_fx65_frame (smallState [1, 2, 3, 4] (List.replicate 16 0)) 0xF265 0).2
      (by decide) (by decide)⟩

/-- Executing `8xy4`: the sum is computed first, then the carry flag is
written to `V[0xF]`, then the truncated sum is stored into `V[x]`
(overwriting the flag whenever `x = 0xF`). -/
theorem exec_8xy4 (s : Chip8) (o r : Nat) (h : o &&& 0xF000 = 0x8000)
    (hn : o &&& 0x000F = 0x4) (hV : s.V.length = 16) :
    exec s o r = .ok { s with V := (s.V.set 15 (if 0xFF < nth s.V ((o &&& 0x0F00) >>> 8) + nth s.V ((o &&& 0x00F0) >>> 4) then 1 else 0)).set ((o &&& 0x0F00) >>> 8) ((nth s.V ((o &&& 0x0F00) >>> 8) + nth s.V ((o &&& 0x00F0) >>> 4)) &&& 0xFF) } := by
  have hE0 := mask_ne_e0 h (by decide)
  have hEE := mask_ne_ee h (by decide)
  have hx := decode_x_lt o
  have hy := decode_y_lt o
  have e1 : lget s.V ((o &&& 0x0F00) >>> 8) = .ok (nth s.V ((o &&& 0x0F00) >>> 8)) :=
    lget_ok (by omega)
  have e2 : lget s.V ((o &&& 0x00F0) >>> 4) = .ok (nth s.V ((o &&& 0x00F0) >>> 4)) :=
    lget_ok (by omega)
  have e3 : lset s.V 15 (if 0xFF < nth s.V ((o &&& 0x0F00) >>> 8) + nth s.V ((o &&& 0x00F0) >>> 4) then 1 else 0) = .ok (s.V.set 15 (if 0xFF < nth s.V ((o &&& 0x0F00) >>> 8) + nth s.V ((o &&& 0x00F0) >>> 4) then 1 else 0)) := lset_ok _ (by omega)
  simp only [exec, h, hn, hE0, hEE, e1, e2, e3, exBindOk]
  norm_num
  rw [lset_ok _ (by rw [List.length_set, hV]; exact hx), exBindOk]

/-- Executing `8xy5`: the borrow flag is written to `V[0xF]` first, and
the subtraction then re-reads both operands, so `x = 0xF` or `y = 0xF`
sees the freshly written flag instead of the original register value. -/
theorem exec_8xy5 (s : Chip8) (o r : Nat) (h : o &&& 0xF000 = 0x8000)
    (hn : o &&& 0x000F = 0x5) (hV : s.V.length = 16) :
    exec s o r = .ok { s with V := (s.V.set 15 (if nth s.V ((o &&& 0x00F0) >>> 4) < nth s.V ((o &&& 0x0F00) >>> 8) then 1 else 0)).set ((o &&& 0x0F00) >>> 8) (subByte (nth (s.V.set 15 (if nth s.V ((o &&& 0x00F0) >>> 4) < nth s.V ((o &&& 0x0F00) >>> 8) then 1 else 0)) ((o &&& 0x0F00) >>> 8)) (nth (s.V.set 15 (if nth s.V ((o &&& 0x00F0) >>> 4) < nth s.V ((o &&& 0x0F00) >>> 8) then 1 else 0)) ((o &&& 0x00F0) >>> 4))) } := by
  have hE0 := mask_ne_e0 h (by decide)
  have hEE := mask_ne_ee h (by decide)
  have hx := decode_x_lt o
  have hy := decode_y_lt o
  have e1 : lget s.V ((o &&& 0x0F00) >>> 8) = .ok (nth s.V ((o &&& 0x0F00) >>> 8)) := lget_ok (by omega)
  have e2 : lget s.V ((o &&& 0x00F0) >>> 4) = .ok (nth s.V ((o &&& 0x00F0) >>> 4)) := lget_ok (by omega)
  have e3 : lset s.V 15 (if nth s.V ((o &&& 0x00F0) >>> 4) < nth s.V ((o &&& 0x0F00) >>> 8) then 1 else 0) = .ok (s.V.set 15 (if nth s.V ((o &&& 0x00F0) >>> 4) < nth s.V ((o &&& 0x0F00) >>> 8) then 1 else 0)) := lset_ok _ (by omega)
  have e4 : lget (s.V.set 15 (if nth s.V ((o &&& 0x00F0) >>> 4) < nth s.V ((o &&& 0x0F00) >>> 8) then 1 else 0)) ((o &&& 0x0F00) >>> 8) = .ok (nth (s.V.set 15 (if nth s.V ((o &&& 0x00F0) >>> 4) < nth s.V ((o &&& 0x0F00) >>> 8) then 1 else 0)) ((o &&& 0x0F00) >>> 8)) := lget_ok (by rw [List.length_set, hV]; exact hx)
  have e5 : lget (s.V.set 15 (if nth s.V ((o &&& 0x00F0) >>> 4) < nth s.V ((o &&& 0x0F00) >>> 8) then 1 else 0)) ((o &&& 0x00F0) >>> 4) = .ok (nth (s.V.set 15 (if nth s.V ((o &&& 0x00F0) >>> 4) < nth s.V ((o &&& 0x0F00) >>> 8) then 1 else 0)) ((o &&& 0x00F0) >>> 4)) := lget_ok (by rw [List.length_set, hV]; exact hy)
  simp only [exec, h, hn, hE0, hEE, e1, e2, e3, e4, e5, exBindOk]
  norm_num
  rw [lset_ok _ (by rw [List.length_set, hV]; exact hx), exBindOk]

/-- Executing `8xy7`: like `8xy5` with the operands swapped; the flag is
written before the subtraction operands are re-read. -/
theorem exec_8xy7 (s : Chip8) (o r : Nat) (h : o &&& 0xF000 = 0x8000)
    (hn : o &&& 0x000F = 0x7) (hV : s.V.length = 16) :
    exec s o r = .ok { s with V := (s.V.set 15 (if nth s.V ((o &&& 0x0F00) >>> 8) < nth s.V ((o &&& 0x00F0) >>> 4) then 1 else 0)).set ((o &&& 0x0F00) >>> 8) (subByte (nth (s.V.set 15 (if nth s.V ((o &&& 0x0F00) >>> 8) < nth s.V ((o &&& 0x00F0) >>> 4) then 1 else 0)) ((o &&& 0x00F0) >>> 4)) (nth (s.V.set 15 (if nth s.V ((o &&& 0x0F00) >>> 8) < nth s.V ((o &&& 0x00F0) >>> 4) then 1 else 0)) ((o &&& 0x0F00) >>> 8))) } := by
  have hE0 := mask_ne_e0 h (by decide)
  have hEE := mask_ne_ee h (by decide)
  have hx := decode_x_lt o
  have hy := decode_y_lt o
  have e1 : lget s.V ((o &&& 0x0F00) >>> 8) = .ok (nth s.V ((o &&& 0x0F00) >>> 8)) := lget_ok (by omega)
  have e2 : lget s.V ((o &&& 0x00F0) >>> 4) = .ok (nth s.V ((o &&& 0x00F0) >>> 4)) := lget_ok (by omega)
  have e3 : lset s.V 15 (if nth s.V ((o &&& 0x0F00) >>> 8) < nth s.V ((o &&& 0x00F0) >>> 4) then 1 else 0) = .ok (s.V.set 15 (if nth s.V ((o &&& 0x0F00) >>> 8) < nth s.V ((o &&& 0x00F0) >>> 4) then 1 else 0)) := lset_ok _ (by omega)
  have e4 : lget (s.V.set 15 (if nth s.V ((o &&& 0x0F00) >>> 8) < nth s.V ((o &&& 0x00F0) >>> 4) then 1 else 0)) ((o &&& 0x0F00) >>> 8) = .ok (nth (s.V.set 15 (if nth s.V ((o &&& 0x0F00) >>> 8) < nth s.V ((o &&& 0x00F0) >>> 4) then 1 else 0)) ((o &&& 0x0F00) >>> 8)) := lget_ok (by rw [List.length_set, hV]; exact hx)
  have e5 : lget (s.V.set 15 (if nth s.V ((o &&& 0x0F00) >>> 8) < nth s.V ((o &&& 0x00F0) >>> 4) then 1 else 0)) ((o &&& 0x00F0) >>> 4) = .ok (nth (s.V.set 15 (if nth s.V ((o &&& 0x0F00) >>> 8) < nth s.V ((o &&& 0x00F0) >>> 4) then 1 else 0)) ((o &&& 0x00F0) >>> 4)) := lget_ok (by rw [List.length_set, hV]; exact hy)
  simp only [exec, h, hn, hE0, hEE, e1, e2, e3, e4, e5, exBindOk]
  norm_num
  rw [lset_ok _ (by rw [List.length_set, hV]; exact hx), exBindOk]

/-- C4 (amended): for `8xy4` with `x` distinct from `0xF`, and for
`8xy5`/`8xy7` with both `x` and `y` distinct from `0xF`, the flag register
`V[0xF]` ends up holding exactly the defined carry/borrow condition and
`V[x]` the 8-bit-truncated arithmetic result.  (When `x = 0xF` the stored
result overwrites the flag, and when `y = 0xF` in `8xy5`/`8xy7` the
subtraction re-reads the freshly written flag, so the original claim fails
there; see the counterexample.) -/
theorem arith_flags_correct (s : Chip8) (o r : Nat) (hV : s.V.length = 16) :
    (o &&& 0xF000 = 0x8000 → o &&& 0x000F = 0x4 → ((o &&& 0x0F00) >>> 8) ≠ 15 →
      ∃ s1, exec s o r = .ok s1 ∧
        nth s1.V 15 = (if 0xFF < nth s.V ((o &&& 0x0F00) >>> 8) + nth s.V ((o &&& 0x00F0) >>> 4) then 1 else 0) ∧
        nth s1.V ((o &&& 0x0F00) >>> 8) = (nth s.V ((o &&& 0x0F00) >>> 8) + nth s.V ((o &&& 0x00F0) >>> 4)) &&& 0xFF) ∧
    (o &&& 0xF000 = 0x8000 → o &&& 0x000F = 0x5 → ((o &&& 0x0F00) >>> 8) ≠ 15 → ((o &&& 0x00F0) >>> 4) ≠ 15 →
      ∃ s1, exec s o r = .ok s1 ∧
        nth s1.V 15 = (if nth s.V ((o &&& 0x00F0) >>> 4) < nth s.V ((o &&& 0x0F00) >>> 8) then 1 else 0) ∧
        nth s1.V ((o &&& 0x0F00) >>> 8) = subByte (nth s.V ((o &&& 0x0F00) >>> 8)) (nth s.V ((o &&& 0x00F0) >>> 4))) ∧
    (o &&& 0xF000 = 0x8000 → o &&& 0x000F = 0x7 → ((o &&& 0x0F00) >>> 8) ≠ 15 → ((o &&& 0x00F0) >>> 4) ≠ 15 →
      ∃ s1, exec s o r = .ok s1 ∧
        nth s1.V 15 = (if nth s.V ((o &&& 0x0F00) >>> 8) < nth s.V ((o &&& 0x00F0) >>> 4) then 1 else 0) ∧
        nth s1.V ((o &&& 0x0F00) >>> 8) = subByte (nth s.V ((o &&& 0x00F0) >>> 4)) (nth s.V ((o &&& 0x0F00) >>> 8))) := by
  have hx := decode_x_lt o
  have hy := decode_y_lt o
  refine ⟨?_, ?_, ?_⟩
  · intro h hn hx15
    refine ⟨_, exec_8xy4 s o r h hn hV, ?_, ?_⟩
    · rw [nth_set_ne _ hx15, nth_set_self _ (by omega)]
    · exact nth_set_self _ (by rw [List.length_set, hV]; exact hx)
  · intro h hn hx15 hy15
    refine ⟨_, exec_8xy5 s o r h hn hV, ?_, ?_⟩
    · rw [nth_set_ne _ hx15, nth_set_self _ (by omega)]
    · rw [nth_set_self _ (by rw [List.length_set, hV]; exact hx),
        nth_set_ne _ (Ne.symm hx15), nth_set_ne _ (Ne.symm hy15)]
  · intro h hn hx15 hy15
    refine ⟨_, exec_8xy7 s o r h hn hV, ?_, ?_⟩
    · rw [nth_set_ne _ hx15, nth_set_self _ (by omega)]
    · rw [nth_set_self _ (by rw [List.length_set, hV]; exact hx),
        nth_set_ne _ (Ne.symm hx15), nth_set_ne _ (Ne.symm hy15)]


/-- Witness for `arith_flags_correct` with `V[1] = 200`, `V[2] = 100`:
opcode 8124 gives `V[0xF] = 1` and `V[1] = 44`; 8125 gives `V[0xF] = 1`
and `V[1] = 100`; 8127 gives `V[0xF] = 0` and `V[1] = 156`. -/
theorem arith_flags_correct_witness :
    (∃ s1, exec { smallState [] (List.replicate 16 0) with V := ((List.replicate 16 0).set 1 200).set 2 100 } 0x8124 0 = .ok s1 ∧
      nth s1.V 15 = 1 ∧ nth s1.V 1 = 44) ∧
    (∃ s1, exec { smallState [] (List.replicate 16 0) with V := ((List.replicate 16 0).set 1 200).set 2 100 } 0x8125 0 = .ok s1 ∧
      nth s1.V 15 = 1 ∧ nth s1.V 1 = 100) ∧
    (∃ s1, exec { smallState [] (List.replicate 16 0) with V := ((List.replicate 16 0).set 1 200).set 2 100 } 0x8127 0 = .ok s1 ∧
      nth s1.V 15 = 0 ∧ nth s1.V 1 = 156) :=
  ⟨(arith_flags_correct _ 0x8124 0 (by decide)).1 (by decide) (by decide) (by decide),
   (arith_flags_correct _ 0x8125 0 (by decide)).2.1 (by decide) (by decide) (by decide) (by decide),
   (arith_flags_correct _ 0x8127 0 (by decide)).2.2 (by decide) (by decide) (by decide) (by decide)⟩

/-- C4 (counterexample): with `x = 0xF`, opcode 8F04 on `V[0xF] = 200`,
`V[0] = 100` leaves `V[0xF] = 44` (the truncated sum), not the carry
flag 1; and with `y = 0xF`, opcode 80F5 on `V[0] = 5`, `V[0xF] = 3` leaves
`V[0] = 4` (the subtraction re-read the freshly written flag), not the
claimed `(V[0] - V[0xF]) mod 256 = 2`. -/
theorem arith_flags_cx :
    (cycle { smallState [0x8F, 0x04] (List.replicate 16 0) with V := ((List.replicate 16 0).set 0xF 200).set 0 100 } 0
      = .ok { smallState [0x8F, 0x04] (List.replicate 16 0) with pc := 2, V := (((List.replicate 16 0).set 0xF 200).set 0 100).set 0xF 44 } ∧
     nth ((((List.replicate 16 0).set 0xF 200).set 0 100).set 0xF 44) 0xF ≠ (if 0xFF < 200 + 100 then 1 else 0)) ∧
    (cycle { smallState [0x80, 0xF5] (List.replicate 16 0) with V := ((List.replicate 16 0).set 0 5).set 0xF 3 } 0
      = .ok { smallState [0x80, 0xF5] (List.replicate 16 0) with pc := 2, V := ((((List.replicate 16 0).set 0 5).set 0xF 3).set 0xF 1).set 0 4 } ∧
     nth (((((List.replicate 16 0).set 0 5).set 0xF 3).set 0xF 1).set 0 4) 0 ≠ subByte 5 3) := by
  refine ⟨⟨by decide, by decide⟩, ⟨by decide, by decide⟩⟩

theorem scanKeys_none_aux (keys : List Nat) (hK : keys.length = 16)
    (hz : ∀ i, i < 16 → nth keys i = 0) :
    ∀ is : List Nat, (∀ i ∈ is, i < 16) → scanKeys keys is = .ok none := by
  intro is
  induction is with
  | nil => intro; rfl
  | cons a as ih =>
      intro hmem
      have ha : a < 16 := hmem a (by simp)
      have hga : lget keys a = .ok (nth keys a) := lget_ok (by omega)
      simp [scanKeys, hga, hz a ha, exBindOk,
        ih (fun i hi => hmem i (by simp [hi]))]

theorem scanKeys_found_aux (keys : List Nat) (k : Nat) (hk : k < keys.length)
    (hnz : nth keys k ≠ 0) (hzb : ∀ j, j < k → nth keys j = 0) :
    ∀ (m a : Nat), a ≤ k → k < a + m → scanKeys keys (List.range' a m) = .ok (some k) := by
  intro m
  induction m with
  | zero => intro a h1 h2; omega
  | succ m ih =>
      intro a h1 h2
      rw [List.range'_succ]
      by_cases hak : a = k
      · subst hak
        simp [scanKeys, lget_ok hk, hnz, exBindOk]
      · have ha : a < k := by omega
        have halt : a < keys.length := by omega
        simp [scanKeys, lget_ok halt, hzb a ha, exBindOk,
          ih (a + 1) (by omega) (by omega)]

/-- C7: executing `Fx0A` with no key pressed returns the state completely
unchanged (the fetch advanced `pc` by 2 and the instruction rewound it by
2), so the same instruction is re-fetched on every subsequent cycle for as
long as no key is pressed; on a cycle where the lowest-indexed pressed key
is `k` (all keys below `k` released, scanned in ascending order),
`V[x] := k` and `pc` advances by exactly 2 net. -/
theorem fx0a_wait (s : Chip8) (r b1 b2 : Nat)
    (h1 : lget s.memory s.pc = .ok b1) (h2 : lget s.memory (s.pc + 1) = .ok b2)
    (hop : ((b1 <<< 8) ||| b2) &&& 0xF000 = 0xF000)
    (hkk : ((b1 <<< 8) ||| b2) &&& 0x00FF = 0x0A)
    (hK : s.keys.length = 16) (hV : s.V.length = 16) :
    ((∀ i, i < 16 → nth s.keys i = 0) → cycle s r = .ok s) ∧
    (∀ k, k < 16 → nth s.keys k ≠ 0 → (∀ j, j < k → nth s.keys j = 0) →
      cycle s r = .ok { s with
        V := s.V.set ((((b1 <<< 8) ||| b2) &&& 0x0F00) >>> 8) k
        pc := s.pc + 2 }) := by
  have hE0 := mask_ne_e0 hop (by decide)
  have hEE := mask_ne_ee hop (by decide)
  constructor
  · intro hz
    have hscan : scanKeys s.keys (List.range 16) = .ok none :=
      scanKeys_none_aux s.keys hK hz (List.range 16) (by simp)
    simp [cycle, h1, h2, exBindOk, exec, hop, hkk, hE0, hEE, hscan]
  · intro k hk hnz hzb
    have hscan : scanKeys s.keys (List.range 16) = .ok (some k) := by
      rw [List.range_eq_range']
      exact scanKeys_found_aux s.keys k (by omega) hnz hzb 16 0 (by omega) (by omega)
    have hx := decode_x_lt ((b1 <<< 8) ||| b2)
    have hsetV : lset s.V ((((b1 <<< 8) ||| b2) &&& 0x0F00) >>> 8) k
        = .ok (s.V.set ((((b1 <<< 8) ||| b2) &&& 0x0F00) >>> 8) k) :=
      lset_ok _ (by omega)
    simp [cycle, h1, h2, exBindOk, exec, hop, hkk, hE0, hEE, hscan, hsetV]

/-- Witness for `fx0a_wait`: `F30A` with no key pressed is a fixed point
of `cycle`; with keys 5 and 9 pressed it sets `V[3] := 5` and advances. -/
theorem fx0a_wait_witness :
    cycle (smallState [0xF3, 0x0A] (List.replicate 16 0)) 5
      = .ok (smallState [0xF3, 0x0A] (List.replicate 16 0)) ∧
    cycle (smallState [0xF3, 0x0A] (((List.replicate 16 0).set 5 1).set 9 1)) 5
      = .ok { smallState [0xF3, 0x0A] (((List.replicate 16 0).set 5 1).set 9 1) with
                V := (List.replicate 16 0).set 3 5
                pc := 2 } :=
  ⟨(fx0a_wait (smallState [0xF3, 0x0A] (List.replicate 16 0)) 5 0xF3 0x0A
      (by decide) (by decide) (by decide) (by decide) (by decide) (by decide)).1
      (by decide),
   (fx0a_wait (smallState [0xF3, 0x0A] (((List.replicate 16 0).set 5 1).set 9 1)) 5 0xF3 0x0A
      (by decide) (by decide) (by decide) (by decide) (by decide) (by decide)).2
      5 (by decide) (by decide) (by decide)⟩

theorem exec_rand_free (s : Chip8) (o r1 r2 : Nat) (h : o &&& 0xF000 ≠ 0xC000) :
    exec s o r1 = exec s o r2 := by
  have hc : (o &&& 0xF000 = 0xC000) = False := eq_false h
  simp only [exec, hc, if_false]

/-- C10: `cycle` is deterministic on every state whose fetched opcode is
not of the form `Cxkk`: the result does not depend on the sampled random
byte, which only the `Cxkk` branch consumes. -/
theorem cycle_deterministic (s : Chip8) (r1 r2 b1 b2 : Nat)
    (h1 : lget s.memory s.pc = .ok b1) (h2 : lget s.memory (s.pc + 1) = .ok b2)
    (hop : ((b1 <<< 8) ||| b2) &&& 0xF000 ≠ 0xC000) :
    cycle s r1 = cycle s r2 := by
  simp only [cycle, h1, h2, exBindOk]
  exact exec_rand_free _ _ _ _ hop

/-- Witness for `cycle_deterministic` on a `CLS` instruction. -/
theorem cycle_deterministic_witness :
    cycle (smallState [0x00, 0xE0] (List.replicate 16 0)) 3
      = cycle (smallState [0x00, 0xE0] (List.replicate 16 0)) 9 :=
  cycle_deterministic (smallState [0x00, 0xE0] (List.replicate 16 0)) 3 9 0x00 0xE0
    (by decide) (by decide) (by decide)

/-- Results that are not the `UnknownOpcode` failure. -/
def NU {α : Type} (e : Except Err α) : Prop := e ≠ .error .UnknownOpcode

theorem NU_ok {α : Type} (a : α) : NU (.ok a : Except Err α) := by
  simp [NU]

theorem NU_err {α : Type} {e : Err} (h : e ≠ .UnknownOpcode) :
    NU (.error e : Except Err α) := by
  simp [NU, h]

theorem NU_bind {α β : Type} {x : Except Err α} {f : α → Except Err β}
    (hx : NU x) (hf : ∀ a, NU (f a)) : NU (x >>= f) := by
  cases x with
  | ok a => exact hf a
  | error e => simpa [NU, exBindErr] using hx

theorem NU_lget (l : List Nat) (i : Nat) : NU (lget l i) := by
  unfold NU lget
  split <;> simp

theorem NU_lset (l : List Nat) (i v : Nat) : NU (lset l i v) := by
  unfold NU lset
  split <;> simp

theorem NU_lget2 (d : List (List Nat)) (r c : Nat) : NU (lget2 d r c) := by
  unfold NU lget2
  split
  · exact NU_lget _ _
  · simp

theorem NU_lset2 (d : List (List Nat)) (r c v : Nat) : NU (lset2 d r c v) := by
  unfold lset2
  split
  · exact NU_bind (NU_lset _ _ _) fun a => NU_ok _
  · exact NU_err (by simp)

theorem NU_scanKeys (keys : List Nat) (is : List Nat) : NU (scanKeys keys is) := by
  induction is with
  | nil => exact NU_ok _
  | cons a as ih =>
      refine NU_bind (NU_lget _ _) fun k => ?_
      by_cases hk : k ≠ 0 <;> simp [scanKeys, hk]
      · exact NU_ok _
      · exact ih

theorem NU_storeRegs (V : List Nat) (I : Nat) (is : List Nat) :
    ∀ mem, NU (storeRegs V I is mem) := by
  induction is with
  | nil => intro mem; exact NU_ok _
  | cons a as ih =>
      intro mem
      exact NU_bind (NU_lget _ _) fun v => NU_bind (NU_lset _ _ _) fun m1 => ih m1

theorem NU_loadRegs (mem : List Nat) (I : Nat) (is : List Nat) :
    ∀ V, NU (loadRegs mem I is V) := by
  induction is with
  | nil => intro V; exact NU_ok _
  | cons a as ih =>
      intro V
      exact NU_bind (NU_lget _ _) fun v => NU_bind (NU_lset _ _ _) fun V1 => ih V1

theorem NU_drwCols (sprite vx vy row : Nat) (cs : List Nat) :
    ∀ dv, NU (drwCols sprite vx vy row cs dv) := by
  induction cs with
  | nil => intro dv; exact NU_ok _
  | cons c cs ih =>
      intro dv
      obtain ⟨d, vf⟩ := dv
      by_cases hb : sprite &&& (0x80 >>> c) ≠ 0 <;> simp [drwCols, hb]
      · exact NU_bind (NU_lget2 _ _ _) fun old =>
          NU_bind (NU_lset2 _ _ _ _) fun d1 => ih _
      · exact ih _

theorem NU_drwRows (mem : List Nat) (I vx vy : Nat) (rs : List Nat) :
    ∀ dv, NU (drwRows mem I vx vy rs dv) := by
  induction rs with
  | nil => intro dv; exact NU_ok _
  | cons a as ih =>
      intro dv
      exact NU_bind (NU_lget _ _) fun sprite =>
        NU_bind (NU_drwCols _ _ _ _ _ _) fun dv1 => ih dv1

theorem and_f000_mod (o : Nat) : (o &&& 0xF000) % 4096 = 0 := by
  have h : (4096 : Nat) = 2 ^ 12 := by norm_num
  rw [h, ← Nat.and_pow_two_sub_one_eq_mod, Nat.and_assoc]
  norm_num
  rw [show (61440 : Nat) &&& 4095 = 0 from by decide, Nat.and_zero]

theorem and_f000_cases (o : Nat) :
    o &&& 0xF000 = 0x0000 ∨ o &&& 0xF000 = 0x1000 ∨ o &&& 0xF000 = 0x2000 ∨
    o &&& 0xF000 = 0x3000 ∨ o &&& 0xF000 = 0x4000 ∨ o &&& 0xF000 = 0x5000 ∨
    o &&& 0xF000 = 0x6000 ∨ o &&& 0xF000 = 0x7000 ∨ o &&& 0xF000 = 0x8000 ∨
    o &&& 0xF000 = 0x9000 ∨ o &&& 0xF000 = 0xA000 ∨ o &&& 0xF000 = 0xB000 ∨
    o &&& 0xF000 = 0xC000 ∨ o &&& 0xF000 = 0xD000 ∨ o &&& 0xF000 = 0xE000 ∨
    o &&& 0xF000 = 0xF000 := by
  have h1 := and_f000_mod o
  have h2 : o &&& 0xF000 ≤ 0xF000 := Nat.and_le_right
  omega

theorem exec_never_unknown (s : Chip8) (o r : Nat) : NU (exec s o r) := by
  unfold exec
  by_cases h1 : o = 0x00E0
  · rw [if_pos h1]
    exact NU_ok _
  by_cases h2 : o = 0x00EE
  · rw [if_neg h1, if_pos h2]
    cases s.stack.getLast? with
    | none => exact NU_err (by simp)
    | some a => exact NU_ok _
  rcases and_f000_cases o with hc|hc|hc|hc|hc|hc|hc|hc|hc|hc|hc|hc|hc|hc|hc|hc
  · -- high nibble 0x0000
    rw [if_neg h1,
      if_neg h2,
      if_pos (show o &&& 0xF000 = 0x0000 from hc)]
    exact NU_ok _
  · -- high nibble 0x1000
    rw [if_neg h1,
      if_neg h2,
      if_neg (show ¬(o &&& 0xF000 = 0x0000) by omega),
      if_pos (show o &&& 0xF000 = 0x1000 from hc)]
    exact NU_ok _
  · -- high nibble 0x2000
    rw [if_neg h1,
      if_neg h2,
      if_neg (show ¬(o &&& 0xF000 = 0x0000) by omega),
      if_neg (show ¬(o &&& 0xF000 = 0x1000) by omega),
      if_pos (show o &&& 0xF000 = 0x2000 from hc)]
    exact NU_ok _
  · -- high nibble 0x3000
    rw [if_neg h1,
      if_neg h2,
      if_neg (show ¬(o &&& 0xF000 = 0x0000) by omega),
      if_neg (show ¬(o &&& 0xF000 = 0x1000) by omega),
      if_neg (show ¬(o &&& 0xF000 = 0x2000) by omega),
      if_pos (show o &&& 0xF000 = 0x3000 from hc)]
    exact NU_bind (NU_lget _ _) fun _ => NU_ok _
  · -- high nibble 0x4000
    rw [if_neg h1,
      if_neg h2,
      if_neg (show ¬(o &&& 0xF000 = 0x0000) by omega),
      if_neg (show ¬(o &&& 0xF000 = 0x1000) by omega),
      if_neg (show ¬(o &&& 0xF000 = 0x2000) by omega),
      if_neg (show ¬(o &&& 0xF000 = 0x3000) by omega),
      if_pos (show o &&& 0xF000 = 0x4000 from hc)]
    exact NU_bind (NU_lget _ _) fun _ => NU_ok _
  · -- high nibble 0x5000
    rw [if_neg h1,
      if_neg h2,
      if_neg (show ¬(o &&& 0xF000 = 0x0000) by omega),
      if_neg (show ¬(o &&& 0xF000 = 0x1000) by omega),
      if_neg (show ¬(o &&& 0xF000 = 0x2000) by omega),
      if_neg (show ¬(o &&& 0xF000 = 0x3000) by omega),
      if_neg (show ¬(o &&& 0xF000 = 0x4000) by omega),
      if_pos (show o &&& 0xF000 = 0x5000 from hc)]
    by_cases hn0 : o &&& 0x000F = 0
    · rw [if_pos hn0]
      exact NU_bind (NU_lget _ _) fun _ => NU_bind (NU_lget _ _) fun _ => NU_ok _
    · rw [if_neg hn0]
      exact NU_ok _
  · -- high nibble 0x6000
    rw [if_neg h1,
      if_neg h2,
      if_neg (show ¬(o &&& 0xF000 = 0x0000) by omega),
      if_neg (show ¬(o &&& 0xF000 = 0x1000) by omega),
      if_neg (show ¬(o &&& 0xF000 = 0x2000) by omega),
      if_neg (show ¬(o &&& 0xF000 = 0x3000) by omega),
      if_neg (show ¬(o &&& 0xF000 = 0x4000) by omega),
      if_neg (show ¬(o &&& 0xF000 = 0x5000) by omega),
      if_pos (show o &&& 0xF000 = 0x6000 from hc)]
    exact NU_bind (NU_lset _ _ _) fun _ => NU_ok _
  · -- high nibble 0x7000
    rw [if_neg h1,
      if_neg h2,
      if_neg (show ¬(o &&& 0xF000 = 0x0000) by omega),
      if_neg (show ¬(o &&& 0xF000 = 0x1000) by omega),
      if_neg (show ¬(o &&& 0xF000 = 0x2000) by omega),
      if_neg (show ¬(o &&& 0xF000 = 0x3000) by omega),
      if_neg (show ¬(o &&& 0xF000 = 0x4000) by omega),
      if_neg (show ¬(o &&& 0xF000 = 0x5000) by omega),
      if_neg (show ¬(o &&& 0xF000 = 0x6000) by omega),
      if_pos (show o &&& 0xF000 = 0x7000 from hc)]
    exact NU_bind (NU_lget _ _) fun _ => NU_bind (NU_lset _ _ _) fun _ => NU_ok _
  · -- high nibble 0x8000
    rw [if_neg h1,
      if_neg h2,
      if_neg (show ¬(o &&& 0xF000 = 0x0000) by omega),
      if_neg (show ¬(o &&& 0xF000 = 0x1000) by omega),
      if_neg (show ¬(o &&& 0xF000 = 0x2000) by omega),
      if_neg (show ¬(o &&& 0xF000 = 0x3000) by omega),
      if_neg (show ¬(o &&& 0xF000 = 0x4000) by omega),
      if_neg (show ¬(o &&& 0xF000 = 0x5000) by omega),
      if_neg (show ¬(o &&& 0xF000 = 0x6000) by omega),
      if_neg (show ¬(o &&& 0xF000 = 0x7000) by omega),
      if_pos (show o &&& 0xF000 = 0x8000 from hc)]
    have h15 : o &&& 0x000F ≤ 15 := Nat.and_le_right
    rcases (show o &&& 0x000F = 0 ∨ o &&& 0x000F = 1 ∨ o &&& 0x000F = 2 ∨ o &&& 0x000F = 3 ∨ o &&& 0x000F = 4 ∨ o &&& 0x000F = 5 ∨ o &&& 0x000F = 6 ∨ o &&& 0x000F = 7 ∨ o &&& 0x000F = 8 ∨ o &&& 0x000F = 9 ∨ o &&& 0x000F = 10 ∨ o &&& 0x000F = 11 ∨ o &&& 0x000F = 12 ∨ o &&& 0x000F = 13 ∨ o &&& 0x000F = 14 ∨ o &&& 0x000F = 15 by omega)
      with hn|hn|hn|hn|hn|hn|hn|hn|hn|hn|hn|hn|hn|hn|hn|hn
    · rw [if_pos (show o &&& 0x000F = 0 from hn)]
      exact NU_bind (NU_lget _ _) fun _ => NU_bind (NU_lset _ _ _) fun _ => NU_ok _
    · rw [if_neg (show ¬(o &&& 0x000F = 0) by omega),
        if_pos (show o &&& 0x000F = 1 from hn)]
      exact NU_bind (NU_lget _ _) fun _ => NU_bind (NU_lget _ _) fun _ =>
        NU_bind (NU_lset _ _ _) fun _ => NU_ok _
    · rw [if_neg (show ¬(o &&& 0x000F = 0) by omega),
        if_neg (show ¬(o &&& 0x000F = 1) by omega),
        if_pos (show o &&& 0x000F = 2 from hn)]
      exact NU_bind (NU_lget _ _) fun _ => NU_bind (NU_lget _ _) fun _ =>
        NU_bind (NU_lset _ _ _) fun _ => NU_ok _
    · rw [if_neg (show ¬(o &&& 0x000F = 0) by omega),
        if_neg (show ¬(o &&& 0x000F = 1) by omega),
        if_neg (show ¬(o &&& 0x000F = 2) by omega),
        if_pos (show o &&& 0x000F = 3 from hn)]
      exact NU_bind (NU_lget _ _) fun _ => NU_bind (NU_lget _ _) fun _ =>
        NU_bind (NU_lset _ _ _) fun _ => NU_ok _
    · rw [if_neg (show ¬(o &&& 0x000F = 0) by omega),
        if_neg (show ¬(o &&& 0x000F = 1) by omega),
        if_neg (show ¬(o &&& 0x000F = 2) by omega),
        if_neg (show ¬(o &&& 0x000F = 3) by omega),
        if_pos (show o &&& 0x000F = 4 from hn)]
      exact NU_bind (NU_lget _ _) fun _ => NU_bind (NU_lget _ _) fun _ =>
        NU_bind (NU_lset _ _ _) fun _ => NU_bind (NU_lset _ _ _) fun _ => NU_ok _
    · rw [if_neg (show ¬(o &&& 0x000F = 0) by omega),
        if_neg (show ¬(o &&& 0x000F = 1) by omega),
        if_neg (show ¬(o &&& 0x000F = 2) by omega),
        if_neg (show ¬(o &&& 0x000F = 3) by omega),
        if_neg (show ¬(o &&& 0x000F = 4) by omega),
        if_pos (show o &&& 0x000F = 5 from hn)]
      exact NU_bind (NU_lget _ _) fun _ => NU_bind (NU_lget _ _) fun _ =>
        NU_bind (NU_lset _ _ _) fun _ => NU_bind (NU_lget _ _) fun _ =>
        NU_bind (NU_lget _ _) fun _ => NU_bind (NU_lset _ _ _) fun _ => NU_ok _
    · rw [if_neg (show ¬(o &&& 0x000F = 0) by omega),
        if_neg (show ¬(o &&& 0x000F = 1) by omega),
        if_neg (show ¬(o &&& 0x000F = 2) by omega),
        if_neg (show ¬(o &&& 0x000F = 3) by omega),
        if_neg (show ¬(o &&& 0x000F = 4) by omega),
        if_neg (show ¬(o &&& 0x000F = 5) by omega),
        if_pos (show o &&& 0x000F = 6 from hn)]
      exact NU_bind (NU_lget _ _) fun _ => NU_bind (NU_lset _ _ _) fun _ =>
        NU_bind (NU_lget _ _) fun _ => NU_bind (NU_lset _ _ _) fun _ => NU_ok _
    · rw [if_neg (show ¬(o &&& 0x000F = 0) by omega),
        if_neg (show ¬(o &&& 0x000F = 1) by omega),
        if_neg (show ¬(o &&& 0x000F = 2) by omega),
        if_neg (show ¬(o &&& 0x000F = 3) by omega),
        if_neg (show ¬(o &&& 0x000F = 4) by omega),
        if_neg (show ¬(o &&& 0x000F = 5) by omega),
        if_neg (show ¬(o &&& 0x000F = 6) by omega),
        if_pos (show o &&& 0x000F = 7 from hn)]
      exact NU_bind (NU_lget _ _) fun _ => NU_bind (NU_lget _ _) fun _ =>
        NU_bind (NU_lset _ _ _) fun _ => NU_bind (NU_lget _ _) fun _ =>
        NU_bind (NU_lget _ _) fun _ => NU_bind (NU_lset _ _ _) fun _ => NU_ok _
    · rw [if_neg (show ¬(o &&& 0x000F = 0) by omega),
        if_neg (show ¬(o &&& 0x000F = 1) by omega),
        if_neg (show ¬(o &&& 0x000F = 2) by omega),
        if_neg (show ¬(o &&& 0x000F = 3) by omega),
        if_neg (show ¬(o &&& 0x000F = 4) by omega),
        if_neg (show ¬(o &&& 0x000F = 5) by omega),
        if_neg (show ¬(o &&& 0x000F = 6) by omega),
        if_neg (show ¬(o &&& 0x000F = 7) by omega),
        if_neg (show ¬(o &&& 0x000F = 14) by omega)]
      exact NU_ok _
    · rw [if_neg (show ¬(o &&& 0x000F = 0) by omega),
        if_neg (show ¬(o &&& 0x000F = 1) by omega),
        if_neg (show ¬(o &&& 0x000F = 2) by omega),
        if_neg (show ¬(o &&& 0x000F = 3) by omega),
        if_neg (show ¬(o &&& 0x000F = 4) by omega),
        if_neg (show ¬(o &&& 0x000F = 5) by omega),
        if_neg (show ¬(o &&& 0x000F = 6) by omega),
        if_neg (show ¬(o &&& 0x000F = 7) by omega),
        if_neg (show ¬(o &&& 0x000F = 14) by omega)]
      exact NU_ok _
    · rw [if_neg (show ¬(o &&& 0x000F = 0) by omega),
        if_neg (show ¬(o &&& 0x000F = 1) by omega),
        if_neg (show ¬(o &&& 0x000F = 2) by omega),
        if_neg (show ¬(o &&& 0x000F = 3) by omega),
        if_neg (show ¬(o &&& 0x000F = 4) by omega),
        if_neg (show ¬(o &&& 0x000F = 5) by omega),
        if_neg (show ¬(o &&& 0x000F = 6) by omega),
        if_neg (show ¬(o &&& 0x000F = 7) by omega),
        if_neg (show ¬(o &&& 0x000F = 14) by omega)]
      exact NU_ok _
    · rw [if_neg (show ¬(o &&& 0x000F = 0) by omega),
        if_neg (show ¬(o &&& 0x000F = 1) by omega),
        if_neg (show ¬(o &&& 0x000F = 2) by omega),
        if_neg (show ¬(o &&& 0x000F = 3) by omega),
        if_neg (show ¬(o &&& 0x000F = 4) by omega),
        if_neg (show ¬(o &&& 0x000F = 5) by omega),
        if_neg (show ¬(o &&& 0x000F = 6) by omega),
        if_neg (show ¬(o &&& 0x000F = 7) by omega),
        if_neg (show ¬(o &&& 0x000F = 14) by omega)]
      exact NU_ok _
    · rw [if_neg (show ¬(o &&& 0x000F = 0) by omega),
        if_neg (show ¬(o &&& 0x000F = 1) by omega),
        if_neg (show ¬(o &&& 0x000F = 2) by omega),
        if_neg (show ¬(o &&& 0x000F = 3) by omega),
        if_neg (show ¬(o &&& 0x000F = 4) by omega),
        if_neg (show ¬(o &&& 0x000F = 5) by omega),
        if_neg (show ¬(o &&& 0x000F = 6) by omega),
        if_neg (show ¬(o &&& 0x000F = 7) by omega),
        if_neg (show ¬(o &&& 0x000F = 14) by omega)]
      exact NU_ok _
    · rw [if_neg (show ¬(o &&& 0x000F = 0) by omega),
        if_neg (show ¬(o &&& 0x000F = 1) by omega),
        if_neg (show ¬(o &&& 0x000F = 2) by omega),
        if_neg (show ¬(o &&& 0x000F = 3) by omega),
        if_neg (show ¬(o &&& 0x000F = 4) by omega),
        if_neg (show ¬(o &&& 0x000F = 5) by omega),
        if_neg (show ¬(o &&& 0x000F = 6) by omega),
        if_neg (show ¬(o &&& 0x000F = 7) by omega),
        if_neg (show ¬(o &&& 0x000F = 14) by omega)]
      exact NU_ok _
    · rw [if_neg (show ¬(o &&& 0x000F = 0) by omega),
        if_neg (show ¬(o &&& 0x000F = 1) by omega),
        if_neg (show ¬(o &&& 0x000F = 2) by omega),
        if_neg (show ¬(o &&& 0x000F = 3) by omega),
        if_neg (show ¬(o &&& 0x000F = 4) by omega),
        if_neg (show ¬(o &&& 0x000F = 5) by omega),
        if_neg (show ¬(o &&& 0x000F = 6) by omega),
        if_neg (show ¬(o &&& 0x000F = 7) by omega),
        if_pos (show o &&& 0x000F = 14 from hn)]
      exact NU_bind (NU_lget _ _) fun _ => NU_bind (NU_lset _ _ _) fun _ =>
        NU_bind (NU_lget _ _) fun _ => NU_bind (NU_lset _ _ _) fun _ => NU_ok _
    · rw [if_neg (show ¬(o &&& 0x000F = 0) by omega),
        if_neg (show ¬(o &&& 0x000F = 1) by omega),
        if_neg (show ¬(o &&& 0x000F = 2) by omega),
        if_neg (show ¬(o &&& 0x000F = 3) by omega),
        if_neg (show ¬(o &&& 0x000F = 4) by omega),
        if_neg (show ¬(o &&& 0x000F = 5) by omega),
        if_neg (show ¬(o &&& 0x000F = 6) by omega),
        if_neg (show ¬(o &&& 0x000F = 7) by omega),
        if_neg (show ¬(o &&& 0x000F = 14) by omega)]
      exact NU_ok _
  · -- high nibble 0x9000
    rw [if_neg h1,
      if_neg h2,
      if_neg (show ¬(o &&& 0xF000 = 0x0000) by omega),
      if_neg (show ¬(o &&& 0xF000 = 0x1000) by omega),
      if_neg (show ¬(o &&& 0xF000 = 0x2000) by omega),
      if_neg (show ¬(o &&& 0xF000 = 0x3000) by omega),
      if_neg (show ¬(o &&& 0xF000 = 0x4000) by omega),
      if_neg (show ¬(o &&& 0xF000 = 0x5000) by omega),
      if_neg (show ¬(o &&& 0xF000 = 0x6000) by omega),
      if_neg (show ¬(o &&& 0xF000 = 0x7000) by omega),
      if_neg (show ¬(o &&& 0xF000 = 0x8000) by omega),
      if_pos (show o &&& 0xF000 = 0x9000 from hc)]
    by_cases hn0 : o &&& 0x000F = 0
    · rw [if_pos hn0]
      exact NU_bind (NU_lget _ _) fun _ => NU_bind (NU_lget _ _) fun _ => NU_ok _
    · rw [if_neg hn0]
      exact NU_ok _
  · -- high nibble 0xA000
    rw [if_neg h1,
      if_neg h2,
      if_neg (show ¬(o &&& 0xF000 = 0x0000) by omega),
      if_neg (show ¬(o &&& 0xF000 = 0x1000) by omega),
      if_neg (show ¬(o &&& 0xF000 = 0x2000) by omega),
      if_neg (show ¬(o &&& 0xF000 = 0x3000) by omega),
      if_neg (show ¬(o &&& 0xF000 = 0x4000) by omega),
      if_neg (show ¬(o &&& 0xF000 = 0x5000) by omega),
      if_neg (show ¬(o &&& 0xF000 = 0x6000) by omega),
      if_neg (show ¬(o &&& 0xF000 = 0x7000) by omega),
      if_neg (show ¬(o &&& 0xF000 = 0x8000) by omega),
      if_neg (show ¬(o &&& 0xF000 = 0x9000) by omega),
      if_pos (show o &&& 0xF000 = 0xA000 from hc)]
    exact NU_ok _
  · -- high nibble 0xB000
    rw [if_neg h1,
      if_neg h2,
      if_neg (show ¬(o &&& 0xF000 = 0x0000) by omega),
      if_neg (show ¬(o &&& 0xF000 = 0x1000) by omega),
      if_neg (show ¬(o &&& 0xF000 = 0x2000) by omega),
      if_neg (show ¬(o &&& 0xF000 = 0x3000) by omega),
      if_neg (show ¬(o &&& 0xF000 = 0x4000) by omega),
      if_neg (show ¬(o &&& 0xF000 = 0x5000) by omega),
      if_neg (show ¬(o &&& 0xF000 = 0x6000) by omega),
      if_neg (show ¬(o &&& 0xF000 = 0x7000) by omega),
      if_neg (show ¬(o &&& 0xF000 = 0x8000) by omega),
      if_neg (show ¬(o &&& 0xF000 = 0x9000) by omega),
      if_neg (show ¬(o &&& 0xF000 = 0xA000) by omega),
      if_pos (show o &&& 0xF000 = 0xB000 from hc)]
    exact NU_bind (NU_lget _ _) fun _ => NU_ok _
  · -- high nibble 0xC000
    rw [if_neg h1,
      if_neg h2,
      if_neg (show ¬(o &&& 0xF000 = 0x0000) by omega),
      if_neg (show ¬(o &&& 0xF000 = 0x1000) by omega),
      if_neg (show ¬(o &&& 0xF000 = 0x2000) by omega),
      if_neg (show ¬(o &&& 0xF000 = 0x3000) by omega),
      if_neg (show ¬(o &&& 0xF000 = 0x4000) by omega),
      if_neg (show ¬(o &&& 0xF000 = 0x5000) by omega),
      if_neg (show ¬(o &&& 0xF000 = 0x6000) by omega),
      if_neg (show ¬(o &&& 0xF000 = 0x7000) by omega),
      if_neg (show ¬(o &&& 0xF000 = 0x8000) by omega),
      if_neg (show ¬(o &&& 0xF000 = 0x9000) by omega),
      if_neg (show ¬(o &&& 0xF000 = 0xA000) by omega),
      if_neg (show ¬(o &&& 0xF000 = 0xB000) by omega),
      if_pos (show o &&& 0xF000 = 0xC000 from hc)]
    exact NU_bind (NU_lset _ _ _) fun _ => NU_ok _
  · -- high nibble 0xD000
    rw [if_neg h1,
      if_neg h2,
      if_neg (show ¬(o &&& 0xF000 = 0x0000) by omega),
      if_neg (show ¬(o &&& 0xF000 = 0x1000) by omega),
      if_neg (show ¬(o &&& 0xF000 = 0x2000) by omega),
      if_neg (show ¬(o &&& 0xF000 = 0x3000) by omega),
      if_neg (show ¬(o &&& 0xF000 = 0x4000) by omega),
      if_neg (show ¬(o &&& 0xF000 = 0x5000) by omega),
      if_neg (show ¬(o &&& 0xF000 = 0x6000) by omega),
      if_neg (show ¬(o &&& 0xF000 = 0x7000) by omega),
      if_neg (show ¬(o &&& 0xF000 = 0x8000) by omega),
      if_neg (show ¬(o &&& 0xF000 = 0x9000) by omega),
      if_neg (show ¬(o &&& 0xF000 = 0xA000) by omega),
      if_neg (show ¬(o &&& 0xF000 = 0xB000) by omega),
      if_neg (show ¬(o &&& 0xF000 = 0xC000) by omega),
      if_pos (show o &&& 0xF000 = 0xD000 from hc)]
    exact NU_bind (NU_lget _ _) fun _ => NU_bind (NU_lget _ _) fun _ =>
      NU_bind (NU_lset _ _ _) fun _ => NU_bind (NU_drwRows _ _ _ _ _ _) fun _ =>
      NU_bind (NU_lset _ _ _) fun _ => NU_ok _
  · -- high nibble 0xE000
    rw [if_neg h1,
      if_neg h2,
      if_neg (show ¬(o &&& 0xF000 = 0x0000) by omega),
      if_neg (show ¬(o &&& 0xF000 = 0x1000) by omega),
      if_neg (show ¬(o &&& 0xF000 = 0x2000) by omega),
      if_neg (show ¬(o &&& 0xF000 = 0x3000) by omega),
      if_neg (show ¬(o &&& 0xF000 = 0x4000) by omega),
      if_neg (show ¬(o &&& 0xF000 = 0x5000) by omega),
      if_neg (show ¬(o &&& 0xF000 = 0x6000) by omega),
      if_neg (show ¬(o &&& 0xF000 = 0x7000) by omega),
      if_neg (show ¬(o &&& 0xF000 = 0x8000) by omega),
      if_neg (show ¬(o &&& 0xF000 = 0x9000) by omega),
      if_neg (show ¬(o &&& 0xF000 = 0xA000) by omega),
      if_neg (show ¬(o &&& 0xF000 = 0xB000) by omega),
      if_neg (show ¬(o &&& 0xF000 = 0xC000) by omega),
      if_neg (show ¬(o &&& 0xF000 = 0xD000) by omega),
      if_pos (show o &&& 0xF000 = 0xE000 from hc)]
    by_cases k9E : o &&& 0x00FF = 0x9E
    · rw [if_pos k9E]
      exact NU_bind (NU_lget _ _) fun _ => NU_bind (NU_lget _ _) fun _ => NU_ok _
    by_cases kA1 : o &&& 0x00FF = 0xA1
    · rw [if_neg k9E, if_pos kA1]
      exact NU_bind (NU_lget _ _) fun _ => NU_bind (NU_lget _ _) fun _ => NU_ok _
    rw [if_neg k9E, if_neg kA1]
    exact NU_ok _
  · -- high nibble 0xF000
    rw [if_neg h1,
      if_neg h2,
      if_neg (show ¬(o &&& 0xF000 = 0x0000) by omega),
      if_neg (show ¬(o &&& 0xF000 = 0x1000) by omega),
      if_neg (show ¬(o &&& 0xF000 = 0x2000) by omega),
      if_neg (show ¬(o &&& 0xF000 = 0x3000) by omega),
      if_neg (show ¬(o &&& 0xF000 = 0x4000) by omega),
      if_neg (show ¬(o &&& 0xF000 = 0x5000) by omega),
      if_neg (show ¬(o &&& 0xF000 = 0x6000) by omega),
      if_neg (show ¬(o &&& 0xF000 = 0x7000) by omega),
      if_neg (show ¬(o &&& 0xF000 = 0x8000) by omega),
      if_neg (show ¬(o &&& 0xF000 = 0x9000) by omega),
      if_neg (show ¬(o &&& 0xF000 = 0xA000) by omega),
      if_neg (show ¬(o &&& 0xF000 = 0xB000) by omega),
      if_neg (show ¬(o &&& 0xF000 = 0xC000) by omega),
      if_neg (show ¬(o &&& 0xF000 = 0xD000) by omega),
      if_neg (show ¬(o &&& 0xF000 = 0xE000) by omega),
      if_pos (show o &&& 0xF000 = 0xF000 from hc)]
    by_cases k07 : o &&& 0x00FF = 0x07
    · rw [if_pos k07]
      exact NU_bind (NU_lset _ _ _) fun _ => NU_ok _
    by_cases k0A : o &&& 0x00FF = 0x0A
    · rw [if_neg k07, if_pos k0A]
      refine NU_bind (NU_scanKeys _ _) fun p => ?_
      rcases p with _ | i
      · exact NU_ok _
      · exact NU_bind (NU_lset _ _ _) fun _ => NU_ok _
    by_cases k15 : o &&& 0x00FF = 0x15
    · rw [if_neg k07, if_neg k0A, if_pos k15]
      exact NU_bind (NU_lget _ _) fun _ => NU_ok _
    by_cases k18 : o &&& 0x00FF = 0x18
    · rw [if_neg k07, if_neg k0A, if_neg k15, if_pos k18]
      exact NU_bind (NU_lget _ _) fun _ => NU_ok _
    by_cases k1E : o &&& 0x00FF = 0x1E
    · rw [if_neg k07, if_neg k0A, if_neg k15, if_neg k18, if_pos k1E]
      exact NU_bind (NU_lget _ _) fun _ => NU_ok _
    by_cases k29 : o &&& 0x00FF = 0x29
    · rw [if_neg k07, if_neg k0A, if_neg k15, if_neg k18, if_neg k1E, if_pos k29]
      exact NU_bind (NU_lget _ _) fun _ => NU_ok _
    by_cases k33 : o &&& 0x00FF = 0x33
    · rw [if_neg k07, if_neg k0A, if_neg k15, if_neg k18, if_neg k1E, if_neg k29, if_pos k33]
      exact NU_bind (NU_lget _ _) fun _ => NU_bind (NU_lset _ _ _) fun _ =>
        NU_bind (NU_lset _ _ _) fun _ => NU_bind (NU_lset _ _ _) fun _ => NU_ok _
    by_cases k55 : o &&& 0x00FF = 0x55
    · rw [if_neg k07, if_neg k0A, if_neg k15, if_neg k18, if_neg k1E, if_neg k29, if_neg k33, if_pos k55]
      exact NU_bind (NU_storeRegs _ _ _ _) fun _ => NU_ok _
    by_cases k65 : o &&& 0x00FF = 0x65
    · rw [if_neg k07, if_neg k0A, if_neg k15, if_neg k18, if_neg k1E, if_neg k29, if_neg k33, if_neg k55, if_pos k65]
      exact NU_bind (NU_loadRegs _ _ _ _) fun _ => NU_ok _
    rw [if_neg k07, if_neg k0A, if_neg k15, if_neg k18, if_neg k1E, if_neg k29, if_neg k33, if_neg k55, if_neg k65]
    exact NU_ok _

/-- C5 (amended): `cycle` never fails with `UnknownOpcode`.  Every 16-bit
pattern is matched by some branch of the dispatch chain (each of the 16
high nibbles has a branch), so the final `raise`-an-unknown-opcode branch
is unreachable; opcodes with unhandled sub-cases inside the 5xxx, 8xxx,
9xxx, Exxx and Fxxx groups are silently ignored rather than rejected. -/
theorem cycle_never_unknown (s : Chip8) (r : Nat) :
    cycle s r ≠ .error .UnknownOpcode := by
  have h : NU (cycle s r) := by
    unfold cycle
    exact NU_bind (NU_lget _ _) fun b1 => NU_bind (NU_lget _ _) fun b2 =>
      exec_never_unknown _ _ _
  exact h

/-- C5 (counterexample): opcode `E000` matches no instruction sub-case,
yet `cycle` does not fail with `UnknownOpcode`: it silently does nothing
except advance `pc` by 2. -/
theorem unknown_opcode_cx :
    cycle (smallState [0xE0, 0x00] (List.replicate 16 0)) 0
      = .ok { smallState [0xE0, 0x00] (List.replicate 16 0) with pc := 2 } ∧
    cycle (smallState [0xE0, 0x00] (List.replicate 16 0)) 0
      ≠ .error .UnknownOpcode := by
  refine ⟨by decide, by decide⟩

theorem getD_set_self2 {α : Type} (l : List α) (i : Nat) (x d : α) (h : i < l.length) :
    (l.set i x).getD i d = x := by
  simp [List.getD_eq_getElem?_getD, List.getElem?_set_self h]

theorem getD_set_ne2 {α : Type} (l : List α) (i j : Nat) (x d : α) (h : i ≠ j) :
    (l.set i x).getD j d = l.getD j d := by
  simp [List.getD_eq_getElem?_getD, List.getElem?_set_ne h]

/-- Well-formedness of the display: 32 rows of 64 pixels. -/
def dShape (d : List (List Nat)) : Prop :=
  d.length = 32 ∧ ∀ row ∈ d, row.length = 64

instance (d : List (List Nat)) : Decidable (dShape d) := by
  unfold dShape
  infer_instance

theorem dShape_getD {d : List (List Nat)} (hd : dShape d) (r : Nat) (hr : r < 32) :
    (d.getD r []).length = 64 := by
  have hrl : r < d.length := by rw [hd.1]; exact hr
  have hmem : d.getD r [] ∈ d := by
    rw [List.getD_eq_getElem?_getD, List.getElem?_eq_getElem hrl]
    exact List.getElem_mem hrl
  exact hd.2 _ hmem

theorem lget2_ok {d : List (List Nat)} (hd : dShape d) {rr cc : Nat}
    (hr : rr < 32) (hc : cc < 64) : lget2 d rr cc = .ok (pix d rr cc) := by
  have hrl : rr < d.length := by rw [hd.1]; exact hr
  unfold lget2
  rw [dif_pos hrl]
  have hget : d.get ⟨rr, hrl⟩ = d.getD rr [] := by
    simp [List.getD_eq_getElem?_getD, List.getElem?_eq_getElem hrl]
  rw [hget]
  exact lget_ok (by rw [dShape_getD hd rr hr]; exact hc)

theorem lset2_ok {d : List (List Nat)} (hd : dShape d) {rr cc : Nat}
    (hr : rr < 32) (hc : cc < 64) (v : Nat) :
    lset2 d rr cc v = .ok (d.set rr ((d.getD rr []).set cc v)) := by
  have hrl : rr < d.length := by rw [hd.1]; exact hr
  unfold lset2
  rw [dif_pos hrl]
  have hget : d.get ⟨rr, hrl⟩ = d.getD rr [] := by
    simp [List.getD_eq_getElem?_getD, List.getElem?_eq_getElem hrl]
  rw [hget, lset_ok v (by rw [dShape_getD hd rr hr]; exact hc), exBindOk]

theorem dShape_set {d : List (List Nat)} (hd : dShape d) {rr cc v : Nat}
    (hr : rr < 32) : dShape (d.set rr ((d.getD rr []).set cc v)) := by
  constructor
  · rw [List.length_set]
    exact hd.1
  · intro row hrow
    rcases List.mem_or_eq_of_mem_set hrow with h | h
    · exact hd.2 _ h
    · rw [h, List.length_set]
      exact dShape_getD hd rr hr

theorem pix_set {d : List (List Nat)} (hd : dShape d) {rr cc : Nat}
    (hr : rr < 32) (hc : cc < 64) (v : Nat) (r' c' : Nat) :
    pix (d.set rr ((d.getD rr []).set cc v)) r' c' =
      if r' = rr ∧ c' = cc then v else pix d r' c' := by
  by_cases h1 : r' = rr
  · subst h1
    have hout : (d.set r' ((d.getD r' []).set cc v)).getD r' [] = (d.getD r' []).set cc v :=
      getD_set_self2 _ _ _ _ (by rw [hd.1]; exact hr)
    simp only [pix, hout]
    by_cases h2 : c' = cc
    · subst h2
      rw [nth_set_self v (by rw [dShape_getD hd _ hr]; exact hc), if_pos (by simp)]
    · rw [nth_set_ne v (fun he => h2 he.symm), if_neg (by tauto)]
  · have hout : (d.set rr ((d.getD rr []).set cc v)).getD r' [] = d.getD r' [] :=
      getD_set_ne2 _ _ _ _ _ (fun he => h1 he.symm)
    simp only [pix, hout]
    rw [if_neg (by tauto)]

theorem mod64_inj {v c1 c2 : Nat} (h1 : c1 < 64) (h2 : c2 < 64)
    (h : (v + c1) % 64 = (v + c2) % 64) : c1 = c2 := by omega

theorem mod32_inj {v c1 c2 : Nat} (h1 : c1 < 32) (h2 : c2 < 32)
    (h : (v + c1) % 32 = (v + c2) % 32) : c1 = c2 := by omega

/-- Sprite byte `sprite` has bit `c` (MSB first) set. -/
def bitSet (sprite c : Nat) : Prop := sprite &&& (0x80 >>> c) ≠ 0

instance (sprite c : Nat) : Decidable (bitSet sprite c) := by
  unfold bitSet
  infer_instance

/-- Pixel `(r1, c1)` is drawn by some column of the sprite row `row`. -/
def colHit (sprite vx vy row : Nat) (cs : List Nat) (r1 c1 : Nat) : Prop :=
  ∃ c ∈ cs, bitSet sprite c ∧ r1 = (vy + row) % 32 ∧ c1 = (vx + c) % 64

instance (sprite vx vy row : Nat) (cs : List Nat) (r1 c1 : Nat) :
    Decidable (colHit sprite vx vy row cs r1 c1) := by
  unfold colHit
  infer_instance

/-- Some column of sprite row `row` lands on a pixel of `d` that is 1. -/
def colCollide (sprite vx vy row : Nat) (cs : List Nat) (d : List (List Nat)) : Prop :=
  ∃ c ∈ cs, bitSet sprite c ∧ pix d ((vy + row) % 32) ((vx + c) % 64) = 1

instance (sprite vx vy row : Nat) (cs : List Nat) (d : List (List Nat)) :
    Decidable (colCollide sprite vx vy row cs d) := by
  unfold colCollide
  infer_instance

/-- Pixel `(r1, c1)` is drawn by some row/column of the sprite. -/
def rowHit (mem : List Nat) (I vx vy : Nat) (rs : List Nat) (r1 c1 : Nat) : Prop :=
  ∃ row ∈ rs, ∃ c, c < 8 ∧ bitSet (nth mem (I + row)) c ∧
    r1 = (vy + row) % 32 ∧ c1 = (vx + c) % 64

instance (mem : List Nat) (I vx vy : Nat) (rs : List Nat) (r1 c1 : Nat) :
    Decidable (rowHit mem I vx vy rs r1 c1) := by
  unfold rowHit
  have : ∀ row : Nat, Decidable (∃ c, c < 8 ∧ bitSet (nth mem (I + row)) c ∧
      r1 = (vy + row) % 32 ∧ c1 = (vx + c) % 64) := fun row =>
    decidable_of_iff (∃ c ∈ List.range 8, bitSet (nth mem (I + row)) c ∧
      r1 = (vy + row) % 32 ∧ c1 = (vx + c) % 64) (by simp [List.mem_range])
  infer_instance

/-- Some row/column of the sprite lands on a pixel of `d` that is 1. -/
def rowCollide (mem : List Nat) (I vx vy : Nat) (rs : List Nat)
    (d : List (List Nat)) : Prop :=
  ∃ row ∈ rs, ∃ c, c < 8 ∧ bitSet (nth mem (I + row)) c ∧
    pix d ((vy + row) % 32) ((vx + c) % 64) = 1

instance (mem : List Nat) (I vx vy : Nat) (rs : List Nat) (d : List (List Nat)) :
    Decidable (rowCollide mem I vx vy rs d) := by
  unfold rowCollide
  have : ∀ row : Nat, Decidable (∃ c, c < 8 ∧ bitSet (nth mem (I + row)) c ∧
      pix d ((vy + row) % 32) ((vx + c) % 64) = 1) := fun row =>
    decidable_of_iff (∃ c ∈ List.range 8, bitSet (nth mem (I + row)) c ∧
      pix d ((vy + row) % 32) ((vx + c) % 64) = 1) (by simp [List.mem_range])
  infer_instance

theorem exists_mem_cons_split {α : Type} (a : α) (l : List α) (p : α → Prop) :
    (∃ x ∈ a :: l, p x) ↔ p a ∨ ∃ x ∈ l, p x := by
  constructor
  · rintro ⟨x, hx, hp⟩
    rcases List.mem_cons.mp hx with rfl | hx2
    · exact Or.inl hp
    · exact Or.inr ⟨x, hx2, hp⟩
  · rintro (hp | ⟨x, hx, hp⟩)
    · exact ⟨a, by simp, hp⟩
    · exact ⟨x, by simp [hx], hp⟩

/-- Behaviour of the inner `Dxyn` column loop: it succeeds on a
well-formed display, preserves the shape, reports a collision in the flag
exactly when some set sprite bit lands on a live pixel, and XORs exactly
the pixels addressed by the set bits (with both coordinates wrapped). -/
theorem drwCols_spec (sprite vx vy row : Nat) :
    ∀ (cs : List Nat) (d : List (List Nat)) (vf : Nat),
      (∀ c ∈ cs, c < 8) → cs.Nodup → dShape d →
      ∃ d1 vf1, drwCols sprite vx vy row cs (d, vf) = .ok (d1, vf1) ∧ dShape d1 ∧
        (vf1 = 1 ↔ (vf = 1 ∨ colCollide sprite vx vy row cs d)) ∧
        (vf1 = vf ∨ vf1 = 1) ∧
        (∀ r1 c1, pix d1 r1 c1 =
          if colHit sprite vx vy row cs r1 c1 then pix d r1 c1 ^^^ 1
          else pix d r1 c1) := by
  intro cs
  induction cs with
  | nil =>
      intro d vf _ _ hd
      refine ⟨d, vf, rfl, hd, by simp [colCollide], Or.inl rfl, ?_⟩
      intro r1 c1
      rw [if_neg (by simp [colHit])]
  | cons c cs ih =>
      intro d vf hb hnd hd
      have hc8 : c < 8 := hb c (by simp)
      have hcs : ∀ x ∈ cs, x < 8 := fun x hx => hb x (by simp [hx])
      obtain ⟨hnotin, hnd2⟩ := List.nodup_cons.mp hnd
      have hpylt : ((vy + row) % 32) < 32 := Nat.mod_lt _ (by norm_num)
      have hpxlt : ((vx + c) % 64) < 64 := Nat.mod_lt _ (by norm_num)
      have hnecol : ∀ x ∈ cs, ¬((vx + x) % 64 = ((vx + c) % 64)) := by
        intro x hx he
        exact hnotin (by rw [← mod64_inj (by have := hcs x hx; omega) (by omega) he]; exact hx)
      by_cases hbit : bitSet sprite c
      · have hbit2 : sprite &&& (0x80 >>> c) ≠ 0 := hbit
        have hread := lget2_ok hd hpylt hpxlt
        have hwrite := lset2_ok hd hpylt hpxlt (pix d ((vy + row) % 32) ((vx + c) % 64) ^^^ 1)
        have hdmid : dShape (d.set ((vy + row) % 32) ((d.getD ((vy + row) % 32) []).set ((vx + c) % 64) (pix d ((vy + row) % 32) ((vx + c) % 64) ^^^ 1))) := dShape_set hd hpylt
        obtain ⟨d2, vf2, heq, hsh, hiff, hor, hpix⟩ := ih (d.set ((vy + row) % 32) ((d.getD ((vy + row) % 32) []).set ((vx + c) % 64) (pix d ((vy + row) % 32) ((vx + c) % 64) ^^^ 1))) (if pix d ((vy + row) % 32) ((vx + c) % 64) = 1 then 1 else vf) hcs hnd2 hdmid
        have hmidpix : ∀ r1 c1, pix (d.set ((vy + row) % 32) ((d.getD ((vy + row) % 32) []).set ((vx + c) % 64) (pix d ((vy + row) % 32) ((vx + c) % 64) ^^^ 1))) r1 c1 =
            if r1 = ((vy + row) % 32) ∧ c1 = ((vx + c) % 64) then pix d ((vy + row) % 32) ((vx + c) % 64) ^^^ 1 else pix d r1 c1 :=
          pix_set hd hpylt hpxlt _
        have hmid_cs : ∀ x ∈ cs, pix (d.set ((vy + row) % 32) ((d.getD ((vy + row) % 32) []).set ((vx + c) % 64) (pix d ((vy + row) % 32) ((vx + c) % 64) ^^^ 1))) ((vy + row) % 32) ((vx + x) % 64)
            = pix d ((vy + row) % 32) ((vx + x) % 64) := by
          intro x hx
          rw [hmidpix, if_neg (by rintro ⟨-, h2⟩; exact hnecol x hx h2)]
        have hcolc : colCollide sprite vx vy row cs (d.set ((vy + row) % 32) ((d.getD ((vy + row) % 32) []).set ((vx + c) % 64) (pix d ((vy + row) % 32) ((vx + c) % 64) ^^^ 1))) ↔
            colCollide sprite vx vy row cs d := by
          unfold colCollide
          exact ⟨fun ⟨x, hx, hb2, hp⟩ => ⟨x, hx, hb2, by rw [hmid_cs x hx] at hp; exact hp⟩,
            fun ⟨x, hx, hb2, hp⟩ => ⟨x, hx, hb2, by rw [hmid_cs x hx]; exact hp⟩⟩
        have hsplitc : colCollide sprite vx vy row (c :: cs) d ↔
            (pix d ((vy + row) % 32) ((vx + c) % 64) = 1 ∨ colCollide sprite vx vy row cs d) := by
          unfold colCollide
          rw [exists_mem_cons_split]
          simp [hbit]
        have hsplith : ∀ r1 c1, colHit sprite vx vy row (c :: cs) r1 c1 ↔
            ((r1 = ((vy + row) % 32) ∧ c1 = ((vx + c) % 64)) ∨ colHit sprite vx vy row cs r1 c1) := by
          intro r1 c1
          unfold colHit
          rw [exists_mem_cons_split]
          simp [hbit]
        refine ⟨d2, vf2, ?_, hsh, ?_, ?_, ?_⟩
        · simp only [drwCols, if_pos hbit2, hread, exBindOk, hwrite]
          exact heq
        · rw [hiff, hcolc, hsplitc]
          by_cases hold : pix d ((vy + row) % 32) ((vx + c) % 64) = 1 <;> simp [hold]
        · rcases hor with h | h
          · rw [h]
            by_cases hold : pix d ((vy + row) % 32) ((vx + c) % 64) = 1 <;> simp [hold]
          · exact Or.inr h
        · intro r1 c1
          rw [hpix r1 c1, hmidpix r1 c1]
          by_cases hH : colHit sprite vx vy row cs r1 c1
          · have hne : ¬(r1 = ((vy + row) % 32) ∧ c1 = ((vx + c) % 64)) := by
              rintro ⟨-, h2⟩
              obtain ⟨x, hx, hb2, hr1, hc1⟩ := hH
              exact hnecol x hx (by rw [← hc1]; exact h2)
            rw [if_pos hH, if_neg hne, if_pos ((hsplith r1 c1).mpr (Or.inr hH))]
          · by_cases hHead : r1 = ((vy + row) % 32) ∧ c1 = ((vx + c) % 64)
            · rw [if_neg hH, if_pos hHead, if_pos ((hsplith r1 c1).mpr (Or.inl hHead))]
              rw [hHead.1, hHead.2]
            · rw [if_neg hH, if_neg hHead,
                if_neg (fun hcc => (hsplith r1 c1).mp hcc |>.elim hHead hH)]
      · have hbit2 : ¬(sprite &&& (0x80 >>> c) ≠ 0) := hbit
        obtain ⟨d2, vf2, heq, hsh, hiff, hor, hpix⟩ := ih d vf hcs hnd2 hd
        have hsplitc : colCollide sprite vx vy row (c :: cs) d ↔
            colCollide sprite vx vy row cs d := by
          unfold colCollide
          rw [exists_mem_cons_split]
          simp [bitSet, hbit2]
        have hsplith : ∀ r1 c1, colHit sprite vx vy row (c :: cs) r1 c1 ↔
            colHit sprite vx vy row cs r1 c1 := by
          intro r1 c1
          unfold colHit
          rw [exists_mem_cons_split]
          simp [bitSet, hbit2]
        refine ⟨d2, vf2, ?_, hsh, ?_, hor, ?_⟩
        · simp only [drwCols, if_neg hbit2]
          exact heq
        · rw [hiff, hsplitc]
        · intro r1 c1
          rw [hpix r1 c1]
          by_cases hH : colHit sprite vx vy row cs r1 c1
          · rw [if_pos hH, if_pos ((hsplith r1 c1).mpr hH)]
          · rw [if_neg hH, if_neg (fun hcc => hH ((hsplith r1 c1).mp hcc))]

/-- Behaviour of the outer `Dxyn` row loop: combining `drwCols_spec` over
the rows, with rows mapping to pairwise distinct display lines. -/
theorem drwRows_spec (mem : List Nat) (I vx vy : Nat) :
    ∀ (rs : List Nat) (d : List (List Nat)) (vf : Nat),
      (∀ x ∈ rs, x < 32) → rs.Nodup → dShape d →
      (∀ x ∈ rs, I + x < mem.length) →
      ∃ d1 vf1, drwRows mem I vx vy rs (d, vf) = .ok (d1, vf1) ∧ dShape d1 ∧
        (vf1 = 1 ↔ (vf = 1 ∨ rowCollide mem I vx vy rs d)) ∧
        (vf1 = vf ∨ vf1 = 1) ∧
        (∀ r1 c1, pix d1 r1 c1 =
          if rowHit mem I vx vy rs r1 c1 then pix d r1 c1 ^^^ 1
          else pix d r1 c1) := by
  intro rs
  induction rs with
  | nil =>
      intro d vf _ _ hd _
      refine ⟨d, vf, rfl, hd, by simp [rowCollide], Or.inl rfl, ?_⟩
      intro r1 c1
      rw [if_neg (by simp [rowHit])]
  | cons row rs ih =>
      intro d vf hb hnd hd hm
      have hrow32 : row < 32 := hb row (by simp)
      have hrs32 : ∀ x ∈ rs, x < 32 := fun x hx => hb x (by simp [hx])
      obtain ⟨hnotin, hnd2⟩ := List.nodup_cons.mp hnd
      have hmrow : I + row < mem.length := hm row (by simp)
      have hmrs : ∀ x ∈ rs, I + x < mem.length := fun x hx => hm x (by simp [hx])
      have hnerow : ∀ x ∈ rs, ¬((vy + x) % 32 = (vy + row) % 32) := by
        intro x hx he
        exact hnotin (by rw [← mod32_inj (hrs32 x hx) hrow32 he]; exact hx)
      have hsprite : lget mem (I + row) = .ok (nth mem (I + row)) := lget_ok hmrow
      obtain ⟨dA, vfA, heqA, hshA, hiffA, horA, hpixA⟩ :=
        drwCols_spec (nth mem (I + row)) vx vy row (List.range 8) d vf
          (fun c hc => List.mem_range.mp hc) (List.nodup_range 8) hd
      obtain ⟨d1, vf1, heq1, hsh1, hiff1, hor1, hpix1⟩ :=
        ih dA vfA hrs32 hnd2 hshA hmrs
      have hrange : ∀ (P : Nat → Prop), (∃ c ∈ List.range 8, P c) ↔ (∃ c, c < 8 ∧ P c) := by
        intro P
        simp [List.mem_range]
      have hcolhit_row : ∀ r1 c1, colHit (nth mem (I + row)) vx vy row (List.range 8) r1 c1 →
          r1 = (vy + row) % 32 := by
        rintro r1 c1 ⟨c, hc, hb2, hr1, hc1⟩
        exact hr1
      have hpixA_rs : ∀ x ∈ rs, ∀ c1, pix dA ((vy + x) % 32) c1 = pix d ((vy + x) % 32) c1 := by
        intro x hx c1
        rw [hpixA, if_neg ?_]
        rintro ⟨c, hc, hb2, hr1, hc1⟩
        exact hnerow x hx hr1
      have hcollide_rs : rowCollide mem I vx vy rs dA ↔ rowCollide mem I vx vy rs d := by
        unfold rowCollide
        constructor
        · rintro ⟨x, hx, c, hc8, hb2, hp⟩
          exact ⟨x, hx, c, hc8, hb2, by rw [hpixA_rs x hx] at hp; exact hp⟩
        · rintro ⟨x, hx, c, hc8, hb2, hp⟩
          exact ⟨x, hx, c, hc8, hb2, by rw [hpixA_rs x hx]; exact hp⟩
      have hsplitc : rowCollide mem I vx vy (row :: rs) d ↔
          (colCollide (nth mem (I + row)) vx vy row (List.range 8) d ∨
            rowCollide mem I vx vy rs d) := by
        unfold rowCollide colCollide
        rw [exists_mem_cons_split]
        constructor
        · rintro (⟨c, hc8, hb2, hp⟩ | h)
          · exact Or.inl ⟨c, List.mem_range.mpr hc8, hb2, hp⟩
          · exact Or.inr h
        · rintro (⟨c, hc, hb2, hp⟩ | h)
          · exact Or.inl ⟨c, List.mem_range.mp hc, hb2, hp⟩
          · exact Or.inr h
      have hsplith : ∀ r1 c1, rowHit mem I vx vy (row :: rs) r1 c1 ↔
          (colHit (nth mem (I + row)) vx vy row (List.range 8) r1 c1 ∨
            rowHit mem I vx vy rs r1 c1) := by
        intro r1 c1
        unfold rowHit colHit
        rw [exists_mem_cons_split]
        constructor
        · rintro (⟨c, hc8, hb2, hr1, hc1⟩ | h)
          · exact Or.inl ⟨c, List.mem_range.mpr hc8, hb2, hr1, hc1⟩
          · exact Or.inr h
        · rintro (⟨c, hc, hb2, hr1, hc1⟩ | h)
          · exact Or.inl ⟨c, List.mem_range.mp hc, hb2, hr1, hc1⟩
          · exact Or.inr h
      have hhit_excl : ∀ r1 c1, colHit (nth mem (I + row)) vx vy row (List.range 8) r1 c1 →
          ¬ rowHit mem I vx vy rs r1 c1 := by
        rintro r1 c1 hcol ⟨x, hx, c, hc8, hb2, hr1, hc1⟩
        exact hnerow x hx (by rw [← hr1]; exact hcolhit_row r1 c1 hcol)
      refine ⟨d1, vf1, ?_, hsh1, ?_, ?_, ?_⟩
      · simp only [drwRows, hsprite, exBindOk, heqA]
        exact heq1
      · rw [hiff1, hiffA, hcollide_rs, hsplitc]
        tauto
      · rcases hor1 with h | h
        · rw [h]
          rcases horA with h2 | h2
          · rw [h2]
            exact Or.inl rfl
          · rw [h2]
            exact Or.inr rfl
        · exact Or.inr h
      · intro r1 c1
        rw [hpix1 r1 c1, hpixA r1 c1]
        by_cases hA : colHit (nth mem (I + row)) vx vy row (List.range 8) r1 c1
        · rw [if_pos hA, if_neg (hhit_excl r1 c1 hA),
            if_pos ((hsplith r1 c1).mpr (Or.inl hA))]
        · rw [if_neg hA]
          by_cases hR : rowHit mem I vx vy rs r1 c1
          · rw [if_pos hR, if_pos ((hsplith r1 c1).mpr (Or.inr hR))]
          · rw [if_neg hR, if_neg (fun hcc => ((hsplith r1 c1).mp hcc).elim hA hR)]

/-- C3: executing `Dxyn` zeroes `V[0xF]`, XORs exactly the pixels
addressed by the set sprite bits, each at column `(V[x]+col) mod 64` and
row `(V[y]+row) mod 32` (wrap applied unconditionally for every sprite
size), and afterwards `V[0xF] = 1` exactly when at least one drawn pixel
was already 1 before its XOR.  `V[x]`/`V[y]` denote the register values at
instruction start (the code captures them before zeroing `V[0xF]`). -/
theorem drw_correct (s : Chip8) (o r : Nat) (hop : o &&& 0xF000 = 0xD000)
    (hV : s.V.length = 16) (hd : dShape s.display)
    (hmem : s.I + (o &&& 0x000F) ≤ s.memory.length) :
    ∃ d1 vf1, exec s o r = .ok { s with display := d1, V := s.V.set 15 vf1 } ∧
      (vf1 = 0 ∨ vf1 = 1) ∧
      (vf1 = 1 ↔ rowCollide s.memory s.I (nth s.V ((o &&& 0x0F00) >>> 8)) (nth s.V ((o &&& 0x00F0) >>> 4))
        (List.range (o &&& 0x000F)) s.display) ∧
      (∀ r1 c1, pix d1 r1 c1 =
        if rowHit s.memory s.I (nth s.V ((o &&& 0x0F00) >>> 8)) (nth s.V ((o &&& 0x00F0) >>> 4))
            (List.range (o &&& 0x000F)) r1 c1
        then pix s.display r1 c1 ^^^ 1 else pix s.display r1 c1) := by
  have hE0 := mask_ne_e0 hop (by decide)
  have hEE := mask_ne_ee hop (by decide)
  have hx := decode_x_lt o
  have hy := decode_y_lt o
  have e1 : lget s.V ((o &&& 0x0F00) >>> 8) = .ok (nth s.V ((o &&& 0x0F00) >>> 8)) := lget_ok (by omega)
  have e2 : lget s.V ((o &&& 0x00F0) >>> 4) = .ok (nth s.V ((o &&& 0x00F0) >>> 4)) := lget_ok (by omega)
  have e3 : lset s.V 15 0 = .ok (s.V.set 15 0) := lset_ok _ (by omega)
  have hn15 : o &&& 0x000F ≤ 15 := Nat.and_le_right
  obtain ⟨d1, vf1, heq, hsh, hiff, hor, hpix⟩ :=
    drwRows_spec s.memory s.I (nth s.V ((o &&& 0x0F00) >>> 8)) (nth s.V ((o &&& 0x00F0) >>> 4))
      (List.range (o &&& 0x000F)) s.display 0
      (fun x hx2 => by have := List.mem_range.mp hx2; omega)
      (List.nodup_range _) hd
      (fun x hx2 => by have := List.mem_range.mp hx2; omega)
  have e4 : lset (s.V.set 15 0) 15 vf1 = .ok ((s.V.set 15 0).set 15 vf1) :=
    lset_ok _ (by rw [List.length_set]; omega)
  refine ⟨d1, vf1, ?_, ?_, ?_, hpix⟩
  · simp only [exec, hop, hE0, hEE, e1, e2, e3, exBindOk]
    norm_num
    rw [heq, exBindOk]
    simp only [e4, exBindOk, List.set_set]
  · rcases hor with h | h
    · exact Or.inl h
    · exact Or.inr h
  · rw [hiff]
    simp

/-- Witness for `drw_correct`: draw the one-row sprite `F0` at the origin
of a blank display. -/
theorem drw_correct_witness :
    ∃ d1 vf1,
      exec { smallState [0xD0, 0x11, 0xF0] (List.replicate 16 0) with I := 2 } 0xD011 0
        = .ok { smallState [0xD0, 0x11, 0xF0] (List.replicate 16 0) with
                  I := 2, display := d1, V := (List.replicate 16 0).set 15 vf1 } ∧
      (vf1 = 0 ∨ vf1 = 1) ∧
      (vf1 = 1 ↔ rowCollide [0xD0, 0x11, 0xF0] 2 0 0 (List.range 1)
        (List.replicate 32 (List.replicate 64 0))) ∧
      (∀ r1 c1, pix d1 r1 c1 =
        if rowHit [0xD0, 0x11, 0xF0] 2 0 0 (List.range 1) r1 c1
        then pix (List.replicate 32 (List.replicate 64 0)) r1 c1 ^^^ 1
        else pix (List.replicate 32 (List.replicate 64 0)) r1 c1) :=
  drw_correct { smallState [0xD0, 0x11, 0xF0] (List.replicate 16 0) with I := 2 }
    0xD011 0 (by decide) (by decide) (by decide) (by decide)
